import Mathlib

/-!
Verification of the `snapback-dev/contracts` event pipeline: a shallow
embedding of the canonical telemetry event schemas (`src/events/core.ts` and
the v1 schemas), the two legacy-event mappers (`src/telemetry/index.ts` and
`src/events/migrate.ts`), the migration driver (`migrate-events` script), the
trigger bitmask codec and the risk-score utilities, together with proofs of
the specified properties.

JavaScript numbers are modelled as `Rat` (every value appearing in the
relevant code paths is exactly representable, and only order comparisons,
clamping and scaling by 10 occur, which agree between IEEE doubles and
rationals on those values).  The ambient clock `Date.now()` is passed in
explicitly as an integer parameter `now`.  Fallible operations (zod `parse`,
`Array(n)` construction) return `Option`, with `none` standing for a thrown
exception that the source catches and converts to `null`.
-/

/-- A JSON-like runtime value, the domain of the zod validators.  Object
fields are an association list (candidate objects in the repository never
contain duplicate keys).  `fn name` stands for a JavaScript function (or,
for `"__proto__"`, object) value, such as a member inherited from
`Object.prototype` — a truthy value of no primitive type, which every zod
primitive check rejects. -/
inductive JVal where
  | str (s : String)
  | num (q : Rat)
  | bool (b : Bool)
  | arr (elems : List JVal)
  | obj (fields : List (String × JVal))
  | null
  | fn (name : String)

/-- Property lookup on a JavaScript object: the value stored under `key`, or
`none` when the key is absent (JS `undefined`). -/
def getField (fields : List (String × JVal)) (key : String) : Option JVal :=
  match fields with
  | [] => none
  | (k, v) :: rest => if k = key then some v else getField rest key

/-- zod `z.string()`: accepts exactly string values. -/
def asString : Option JVal → Option String
  | some (.str s) => some s
  | _ => none

/-- zod `z.number()`: accepts exactly numeric values. -/
def asNumber : Option JVal → Option Rat
  | some (.num q) => some q
  | _ => none

/-- zod `z.boolean()`: accepts exactly boolean values. -/
def asBool : Option JVal → Option Bool
  | some (.bool b) => some b
  | _ => none

/-- zod `z.enum(allowed)`: accepts exactly the strings in `allowed`. -/
def asEnum (allowed : List String) (v : Option JVal) : Option String :=
  match v with
  | some (.str s) => if allowed.contains s then some s else none
  | _ => none

/-- Element-wise string extraction for `z.array(z.string())`. -/
def allStrings : List JVal → Option (List String)
  | [] => some []
  | .str s :: rest =>
      match allStrings rest with
      | some l => some (s :: l)
      | none => none
  | _ => none

/-- zod `z.array(z.string())`: accepts arrays whose elements are all strings. -/
def asStringList (v : Option JVal) : Option (List String) :=
  match v with
  | some (.arr xs) => allStrings xs
  | _ => none

/-- zod `z.string().default(d)`: a missing key takes the default, a present
key must hold a string. -/
def asStringWithDefault (d : String) : Option JVal → Option String
  | none => some d
  | some (.str s) => some s
  | some _ => none

/-- zod `z.number().default(d)`: a missing key takes the default, a present
key must hold a number. -/
def asNumberWithDefault (d : Rat) : Option JVal → Option Rat
  | none => some d
  | some (.num q) => some q
  | some _ => none

/-- zod `z.enum(allowed).optional()`: missing is accepted as `none`. -/
def asOptEnum (allowed : List String) (v : Option JVal) : Option (Option String) :=
  match v with
  | none => some none
  | some (.str s) => if allowed.contains s then some (some s) else none
  | some _ => none

/-- zod `z.number().min(lo).max(hi).optional()`. -/
def asOptNumberRange (lo hi : Rat) (v : Option JVal) : Option (Option Rat) :=
  match v with
  | none => some none
  | some (.num q) => if lo ≤ q ∧ q ≤ hi then some (some q) else none
  | some _ => none

/-- zod `z.number().int().min(0).optional()`. -/
def asOptIntNonneg (v : Option JVal) : Option (Option Rat) :=
  match v with
  | none => some none
  | some (.num q) => if q.den = 1 ∧ 0 ≤ q then some (some q) else none
  | some _ => none

/-- Properties of a `save_attempt` canonical event (`SaveAttemptSchema`). -/
structure SaveAttemptProps where
  protection : String
  severity : String
  file_kind : String
  reason : String
  ai_present : Bool
  ai_burst : Bool
  outcome : String
deriving DecidableEq

/-- Properties of a `snapshot_created` canonical event
(`SnapshotCreatedSchema`). -/
structure SnapshotCreatedProps where
  session_id : String
  snapshot_id : String
  bytes_original : Rat
  bytes_stored : Rat
  dedup_hit : Bool
  latency_ms : Rat
deriving DecidableEq

/-- Properties of a `session_finalized` canonical event.  The five `ai_*`
fields are the optional AI-detection fields present only in the
`src/events/core.ts` schema; the v1 schema never produces them, in which case
they are `none`. -/
structure SessionFinalizedProps where
  session_id : String
  files : List String
  triggers : List String
  duration_ms : Rat
  ai_present : Bool
  ai_burst : Bool
  highest_severity : String
  ai_assist_level : Option String
  ai_confidence_score : Option Rat
  ai_provider : Option String
  ai_large_insert_count : Option Rat
  ai_total_chars : Option Rat
deriving DecidableEq

/-- Properties of an `issue_created` canonical event (`IssueCreatedSchema`). -/
structure IssueCreatedProps where
  issue_id : String
  session_id : String
  file_kind : String
  type : String
  severity : String
  recommendation : String
deriving DecidableEq

/-- Properties of an `issue_resolved` canonical event (`IssueResolvedSchema`). -/
structure IssueResolvedProps where
  issue_id : String
  resolution : String
deriving DecidableEq

/-- Properties of a `session_restored` canonical event
(`SessionRestoredSchema`). -/
structure SessionRestoredProps where
  session_id : String
  files_restored : List String
  time_to_restore_ms : Rat
  reason : String
deriving DecidableEq

/-- Properties of a `policy_changed` canonical event (`PolicyChangedSchema`).
The source fields `from` and `to` are rendered `protFrom` and `protTo`
because `from` is reserved in Lean. -/
structure PolicyChangedProps where
  pattern : String
  protFrom : String
  protTo : String
  source : String
deriving DecidableEq

/-- A canonical (core) telemetry event: the tagged variant over the seven
canonical tags, each carrying the envelope (`event_version`, `timestamp`)
and its tag-specific properties (`CoreTelemetryEvent`). -/
inductive CoreEvent where
  | save_attempt (event_version : String) (timestamp : Rat) (props : SaveAttemptProps)
  | snapshot_created (event_version : String) (timestamp : Rat) (props : SnapshotCreatedProps)
  | session_finalized (event_version : String) (timestamp : Rat) (props : SessionFinalizedProps)
  | issue_created (event_version : String) (timestamp : Rat) (props : IssueCreatedProps)
  | issue_resolved (event_version : String) (timestamp : Rat) (props : IssueResolvedProps)
  | session_restored (event_version : String) (timestamp : Rat) (props : SessionRestoredProps)
  | policy_changed (event_version : String) (timestamp : Rat) (props : PolicyChangedProps)
deriving DecidableEq

/-- Envelope timestamp of a canonical event. -/
def CoreEvent.timestamp : CoreEvent → Rat
  | .save_attempt _ ts _ => ts
  | .snapshot_created _ ts _ => ts
  | .session_finalized _ ts _ => ts
  | .issue_created _ ts _ => ts
  | .issue_resolved _ ts _ => ts
  | .session_restored _ ts _ => ts
  | .policy_changed _ ts _ => ts

/-- Envelope version of a canonical event. -/
def CoreEvent.event_version : CoreEvent → String
  | .save_attempt ev _ _ => ev
  | .snapshot_created ev _ _ => ev
  | .session_finalized ev _ _ => ev
  | .issue_created ev _ _ => ev
  | .issue_resolved ev _ _ => ev
  | .session_restored ev _ _ => ev
  | .policy_changed ev _ _ => ev

/-- The enumeration constraints of the canonical schemas, as a boolean
predicate on the already-structured event: every enum-typed field holds one
of its allowed values.  Parsing (below) only ever produces events satisfying
this predicate. -/
def CoreEvent.wf : CoreEvent → Bool
  | .save_attempt _ _ p =>
      ["watch", "warn", "block"].contains p.protection &&
      ["low", "medium", "high", "critical"].contains p.severity &&
      ["saved", "canceled", "blocked"].contains p.outcome
  | .snapshot_created _ _ _ => true
  | .session_finalized _ _ p =>
      ["low", "medium", "high", "critical"].contains p.highest_severity
  | .issue_created _ _ p =>
      ["secret", "mock", "phantom"].contains p.type &&
      ["low", "medium", "high", "critical"].contains p.severity
  | .issue_resolved _ _ p =>
      ["fixed", "ignored", "allowlisted"].contains p.resolution
  | .session_restored _ _ _ => true
  | .policy_changed _ _ p =>
      ["watch", "warn", "block", "unprotected"].contains p.protFrom &&
      ["watch", "warn", "block", "unprotected"].contains p.protTo

/-- Properties object of `SaveAttemptSchema` (identical in
`src/events/core.ts` and the v1 schemas). -/
def parseSaveAttemptProps (pv : List (String × JVal)) : Option SaveAttemptProps :=
  match asEnum ["watch", "warn", "block"] (getField pv "protection"),
        asEnum ["low", "medium", "high", "critical"] (getField pv "severity"),
        asString (getField pv "file_kind"),
        asString (getField pv "reason"),
        asBool (getField pv "ai_present"),
        asBool (getField pv "ai_burst"),
        asEnum ["saved", "canceled", "blocked"] (getField pv "outcome") with
  | some protection, some severity, some fk, some reason, some aip, some aib, some outcome =>
      some ⟨protection, severity, fk, reason, aip, aib, outcome⟩
  | _, _, _, _, _, _, _ => none

/-- Properties object of `SnapshotCreatedSchema`. -/
def parseSnapshotCreatedProps (pv : List (String × JVal)) : Option SnapshotCreatedProps :=
  match asString (getField pv "session_id"),
        asString (getField pv "snapshot_id"),
        asNumber (getField pv "bytes_original"),
        asNumber (getField pv "bytes_stored"),
        asBool (getField pv "dedup_hit"),
        asNumber (getField pv "latency_ms") with
  | some sid, some snid, some bo, some bs, some dh, some lat =>
      some ⟨sid, snid, bo, bs, dh, lat⟩
  | _, _, _, _, _, _ => none

/-- Properties object of the v1 `SessionFinalizedSchema` (no optional AI
fields). -/
def parseSessionFinalizedPropsV1 (pv : List (String × JVal)) : Option SessionFinalizedProps :=
  match asString (getField pv "session_id"),
        asStringList (getField pv "files"),
        asStringList (getField pv "triggers"),
        asNumber (getField pv "duration_ms"),
        asBool (getField pv "ai_present"),
        asBool (getField pv "ai_burst"),
        asEnum ["low", "medium", "high", "critical"] (getField pv "highest_severity") with
  | some sid, some files, some triggers, some dur, some aip, some aib, some hs =>
      some ⟨sid, files, triggers, dur, aip, aib, hs, none, none, none, none, none⟩
  | _, _, _, _, _, _, _ => none

/-- Properties object of the `src/events/core.ts` `SessionFinalizedSchema`,
including the optional AI-detection v1 fields. -/
def parseSessionFinalizedPropsCore (pv : List (String × JVal)) : Option SessionFinalizedProps :=
  match parseSessionFinalizedPropsV1 pv,
        asOptEnum ["none", "light", "medium", "heavy", "unknown"] (getField pv "ai_assist_level"),
        asOptNumberRange 0 10 (getField pv "ai_confidence_score"),
        asOptEnum ["cursor", "claude", "unknown", "none"] (getField pv "ai_provider"),
        asOptIntNonneg (getField pv "ai_large_insert_count"),
        asOptIntNonneg (getField pv "ai_total_chars") with
  | some base, some al, some cs, some pr, some lic, some tc =>
      some { base with
              ai_assist_level := al, ai_confidence_score := cs, ai_provider := pr,
              ai_large_insert_count := lic, ai_total_chars := tc }
  | _, _, _, _, _, _ => none

/-- Properties object of `IssueCreatedSchema`. -/
def parseIssueCreatedProps (pv : List (String × JVal)) : Option IssueCreatedProps :=
  match asString (getField pv "issue_id"),
        asString (getField pv "session_id"),
        asString (getField pv "file_kind"),
        asEnum ["secret", "mock", "phantom"] (getField pv "type"),
        asEnum ["low", "medium", "high", "critical"] (getField pv "severity"),
        asString (getField pv "recommendation") with
  | some iid, some sid, some fk, some ty, some sev, some rec =>
      some ⟨iid, sid, fk, ty, sev, rec⟩
  | _, _, _, _, _, _ => none

/-- Properties object of `IssueResolvedSchema`. -/
def parseIssueResolvedProps (pv : List (String × JVal)) : Option IssueResolvedProps :=
  match asString (getField pv "issue_id"),
        asEnum ["fixed", "ignored", "allowlisted"] (getField pv "resolution") with
  | some iid, some res => some ⟨iid, res⟩
  | _, _ => none

/-- Properties object of `SessionRestoredSchema`. -/
def parseSessionRestoredProps (pv : List (String × JVal)) : Option SessionRestoredProps :=
  match asString (getField pv "session_id"),
        asStringList (getField pv "files_restored"),
        asNumber (getField pv "time_to_restore_ms"),
        asString (getField pv "reason") with
  | some sid, some fr, some ttr, some reason => some ⟨sid, fr, ttr, reason⟩
  | _, _, _, _ => none

/-- Properties object of `PolicyChangedSchema`. -/
def parsePolicyChangedProps (pv : List (String × JVal)) : Option PolicyChangedProps :=
  match asString (getField pv "pattern"),
        asEnum ["watch", "warn", "block", "unprotected"] (getField pv "from"),
        asEnum ["watch", "warn", "block", "unprotected"] (getField pv "to"),
        asString (getField pv "source") with
  | some pat, some f, some t, some src => some ⟨pat, f, t, src⟩
  | _, _, _, _ => none

/-- zod `z.object(...)`: the value must be an object. -/
def asObj : Option JVal → Option (List (String × JVal))
  | some (.obj fields) => some fields
  | _ => none

/-- Parse of one `BaseEventSchema.extend({event: z.literal(tagLit),
properties: z.object(...)})` schema: the common shape of all seven canonical
event schemas.  `now` is the ambient `Date.now()` used by the `timestamp`
default; `event_version` defaults to `"1.0.0"`. -/
def parseEventSchema {α : Type} (tagLit : String) (ctor : String → Rat → α → CoreEvent)
    (pp : List (String × JVal) → Option α) (now : Int) (v : JVal) : Option CoreEvent :=
  match v with
  | .obj fields =>
    match asString (getField fields "event") with
    | some t =>
      if t = tagLit then
        match asObj (getField fields "properties") with
        | some pv =>
          match pp pv,
                asStringWithDefault "1.0.0" (getField fields "event_version"),
                asNumberWithDefault (now : Rat) (getField fields "timestamp") with
          | some props, some ev, some ts => some (ctor ev ts props)
          | _, _, _ => none
        | none => none
      else none
    | none => none
  | _ => none

/-- v1 `SaveAttemptSchema.parse` (also the `core.ts` one: they coincide). -/
def parseSaveAttemptSchema (now : Int) (v : JVal) : Option CoreEvent :=
  parseEventSchema "save_attempt" CoreEvent.save_attempt parseSaveAttemptProps now v

/-- `SnapshotCreatedSchema.parse` (v1 name `SnapshotCreatedSchemaV1`). -/
def parseSnapshotCreatedSchema (now : Int) (v : JVal) : Option CoreEvent :=
  parseEventSchema "snapshot_created" CoreEvent.snapshot_created parseSnapshotCreatedProps now v

/-- v1 `SessionFinalizedSchema.parse`. -/
def parseSessionFinalizedSchemaV1 (now : Int) (v : JVal) : Option CoreEvent :=
  parseEventSchema "session_finalized" CoreEvent.session_finalized parseSessionFinalizedPropsV1 now v

/-- `core.ts` `SessionFinalizedSchema.parse` (with optional AI fields). -/
def parseSessionFinalizedSchemaCore (now : Int) (v : JVal) : Option CoreEvent :=
  parseEventSchema "session_finalized" CoreEvent.session_finalized parseSessionFinalizedPropsCore now v

/-- `IssueCreatedSchema.parse`. -/
def parseIssueCreatedSchema (now : Int) (v : JVal) : Option CoreEvent :=
  parseEventSchema "issue_created" CoreEvent.issue_created parseIssueCreatedProps now v

/-- `IssueResolvedSchema.parse`. -/
def parseIssueResolvedSchema (now : Int) (v : JVal) : Option CoreEvent :=
  parseEventSchema "issue_resolved" CoreEvent.issue_resolved parseIssueResolvedProps now v

/-- `SessionRestoredSchema.parse`. -/
def parseSessionRestoredSchema (now : Int) (v : JVal) : Option CoreEvent :=
  parseEventSchema "session_restored" CoreEvent.session_restored parseSessionRestoredProps now v

/-- `PolicyChangedSchema.parse`. -/
def parsePolicyChangedSchema (now : Int) (v : JVal) : Option CoreEvent :=
  parseEventSchema "policy_changed" CoreEvent.policy_changed parsePolicyChangedProps now v

/-- The v1 `CoreEventSchema.safeParse` (discriminated union over `event`),
from `events.v1.ts`: dispatch on the discriminator string, then parse with
the tag's schema. -/
def parseCoreEventV1 (now : Int) (v : JVal) : Option CoreEvent :=
  match v with
  | .obj fields =>
    match asString (getField fields "event") with
    | some t =>
      if t = "save_attempt" then parseSaveAttemptSchema now v
      else if t = "snapshot_created" then parseSnapshotCreatedSchema now v
      else if t = "session_finalized" then parseSessionFinalizedSchemaV1 now v
      else if t = "issue_created" then parseIssueCreatedSchema now v
      else if t = "issue_resolved" then parseIssueResolvedSchema now v
      else if t = "session_restored" then parseSessionRestoredSchema now v
      else if t = "policy_changed" then parsePolicyChangedSchema now v
      else none
    | none => none
  | _ => none

/-- The `src/events/core.ts` `CoreEventSchema.safeParse`: identical to the v1
union except that `session_finalized` carries the optional AI fields. -/
def parseCoreEventCore (now : Int) (v : JVal) : Option CoreEvent :=
  match v with
  | .obj fields =>
    match asString (getField fields "event") with
    | some t =>
      if t = "save_attempt" then parseSaveAttemptSchema now v
      else if t = "snapshot_created" then parseSnapshotCreatedSchema now v
      else if t = "session_finalized" then parseSessionFinalizedSchemaCore now v
      else if t = "issue_created" then parseIssueCreatedSchema now v
      else if t = "issue_resolved" then parseIssueResolvedSchema now v
      else if t = "session_restored" then parseSessionRestoredSchema now v
      else if t = "policy_changed" then parsePolicyChangedSchema now v
      else none
    | none => none
  | _ => none

namespace EventsV1

/-- `validateCoreTelemetryEvent` from `events.v1.ts`: `safeParse` succeeded. -/
def validateCoreTelemetryEvent (now : Int) (v : JVal) : Bool :=
  (parseCoreEventV1 now v).isSome

/-- `getCoreEventValidationError` from `events.v1.ts`: `null` on success, a
diagnostic message otherwise (the message text itself is abstracted). -/
def getCoreEventValidationError (now : Int) (v : JVal) : Option String :=
  match parseCoreEventV1 now v with
  | some _ => none
  | none => some "validation error"

end EventsV1

namespace EventsCore

/-- `validateCoreTelemetryEvent` from `src/events/core.ts`. -/
def validateCoreTelemetryEvent (now : Int) (v : JVal) : Bool :=
  (parseCoreEventCore now v).isSome

/-- `getCoreEventValidationError` from `src/events/core.ts`. -/
def getCoreEventValidationError (now : Int) (v : JVal) : Option String :=
  match parseCoreEventCore now v with
  | some _ => none
  | none => some "validation error"

end EventsCore

/-- A legacy telemetry event (`AllowedTelemetryEvent` from
`src/telemetry/events.ts`): the seventeen historical tags with their ad-hoc
property shapes, plus `unknownEvent` for a record whose tag is outside the
enumeration (the `default` branch of the mappers).  Every event carries an
epoch-milliseconds `timestamp`. -/
inductive LegacyEvent where
  | extensionActivated (version vscodeVersion : String) (timestamp : Rat)
  | extensionDeactivated (timestamp : Rat)
  | commandExecution (command : String) (duration : Rat) (success : Bool) (timestamp : Rat)
  | snapshotCreated (method : String) (filesCount : Rat) (timestamp : Rat)
  | snapbackUsed (filesRestored duration : Rat) (success : Bool) (timestamp : Rat)
  | riskDetected (riskLevel : String) (patterns : List String) (confidence : Rat) (timestamp : Rat)
  | viewActivated (viewId : String) (timestamp : Rat)
  | notificationShown (notificationType : String) (actionTaken : Option String) (timestamp : Rat)
  | featureUsed (feature : String) (timestamp : Rat)
  | errorEvent (errorType errorMessage : String) (timestamp : Rat)
  | walkthroughStepCompleted (stepId stepTitle : String) (timestamp : Rat)
  | onboardingProtectionAssigned (level trigger fileType : String) (isFirstProtection : Bool)
      (timestamp : Rat)
  | onboardingPhaseProgressed (phase : Rat) (trigger : String) (unlockedFeatures : List String)
      (timestamp : Rat)
  | onboardingContextualPromptShown (promptType : String) (actionTaken : Option String)
      (timestamp : Rat)
  | signatureVerificationSuccess (timestamp : Rat)
  | signatureVerificationFailed (timestamp : Rat)
  | rulesCachedFallback (timestamp : Rat)
  | unknownEvent (tag : String) (timestamp : Rat)
deriving DecidableEq

/-- The `timestamp` field of a legacy event. -/
def LegacyEvent.timestamp : LegacyEvent → Rat
  | .extensionActivated _ _ ts => ts
  | .extensionDeactivated ts => ts
  | .commandExecution _ _ _ ts => ts
  | .snapshotCreated _ _ ts => ts
  | .snapbackUsed _ _ _ ts => ts
  | .riskDetected _ _ _ ts => ts
  | .viewActivated _ ts => ts
  | .notificationShown _ _ ts => ts
  | .featureUsed _ ts => ts
  | .errorEvent _ _ ts => ts
  | .walkthroughStepCompleted _ _ ts => ts
  | .onboardingProtectionAssigned _ _ _ _ ts => ts
  | .onboardingPhaseProgressed _ _ _ ts => ts
  | .onboardingContextualPromptShown _ _ ts => ts
  | .signatureVerificationSuccess ts => ts
  | .signatureVerificationFailed ts => ts
  | .rulesCachedFallback ts => ts
  | .unknownEvent _ ts => ts

/-- Object shape shared by every candidate a mapper builds before calling a
schema `parse`: `{event: tag, properties: {...}, timestamp: ts}` (the key
order of the source literals). -/
def legacyMappedCandidate (tag : String) (pv : List (String × JVal)) (ts : Rat) : JVal :=
  .obj [("event", .str tag), ("properties", .obj pv), ("timestamp", .num ts)]

/-- Character-list substring occurrence test. -/
def containsSubChars (needle : List Char) : List Char → Bool
  | [] => needle.isEmpty
  | c :: rest => needle.isPrefixOf (c :: rest) || containsSubChars needle rest

/-- JavaScript substring test `s.includes(needle)`. -/
def containsSub (needle s : String) : Bool :=
  containsSubChars needle.toList s.toList

/-- The property names a plain JavaScript object literal inherits from
`Object.prototype`: bracket lookup with one of these keys finds the inherited
member — a function (for `"__proto__"`, an object), hence truthy — even
though it is not an own key of the literal. -/
def objectPrototypeKeys : List String :=
  ["constructor", "hasOwnProperty", "isPrototypeOf", "propertyIsEnumerable",
   "toLocaleString", "toString", "valueOf", "__defineGetter__",
   "__defineSetter__", "__lookupGetter__", "__lookupSetter__", "__proto__"]

namespace Telemetry

/-- Lookup in the literal record `protectionMap` of
`mapOnboardingProtectionAssigned` (`src/telemetry/index.ts`), with its
`|| "watch"` fallback.  An own key yields its string value; a key naming an
inherited `Object.prototype` member yields that member, a truthy function
that skips the `||` fallback and flows into the candidate; any other key
yields `undefined` and the fallback applies. -/
def protectionFor (level : String) : JVal :=
  if level = "low" then .str "watch"
  else if level = "medium" then .str "warn"
  else if level = "high" then .str "block"
  else if level = "critical" then .str "block"
  else if objectPrototypeKeys.contains level then .fn level
  else .str "watch"

/-- Lookup in the literal record `severityMap` of
`mapOnboardingProtectionAssigned` (`src/telemetry/index.ts`), with its
`|| "low"` fallback (and the same inherited-member behaviour as
`protectionFor` for `Object.prototype` key names). -/
def severityForDefaultLow (level : String) : JVal :=
  if level = "low" then .str "low"
  else if level = "medium" then .str "medium"
  else if level = "high" then .str "high"
  else if level = "critical" then .str "critical"
  else if objectPrototypeKeys.contains level then .fn level
  else .str "low"

/-- Lookup in the literal record `severityMap` of `mapRiskDetected`
(`src/telemetry/index.ts`), with its `|| "medium"` fallback.  A level naming
an inherited `Object.prototype` member yields that truthy non-string member,
so the fallback is skipped and the subsequent schema parse fails. -/
def severityForDefaultMedium (level : String) : JVal :=
  if level = "low" then .str "low"
  else if level = "medium" then .str "medium"
  else if level = "high" then .str "high"
  else if level = "critical" then .str "critical"
  else if objectPrototypeKeys.contains level then .fn level
  else .str "medium"

/-- Issue-type selection of `mapRiskDetected` (`src/telemetry/index.ts`):
start from `"secret"`, switch to `"mock"` when some pattern contains `"mock"`
or `"test"`, else to `"phantom"` when some pattern contains `"phantom"` or
`"unused"`. -/
def riskIssueType (patterns : List String) : String :=
  if patterns.any fun p => containsSub "mock" p || containsSub "test" p then "mock"
  else if patterns.any fun p => containsSub "phantom" p || containsSub "unused" p then "phantom"
  else "secret"

/-- JavaScript `Array(n).fill("legacy_file")` from `mapSnapBackUsed`:
succeeds with a list of `n` copies when `n` is an integer in `[0, 2^32)`,
otherwise throws a `RangeError` (modelled as `none`, caught by the mapper). -/
def fillLegacyFiles (n : Rat) : Option (List String) :=
  if n.den = 1 ∧ 0 ≤ n.num ∧ n.num < 4294967296 then
    some (List.replicate n.num.toNat "legacy_file")
  else none

namespace TelemetryEventMapper

/-- `TelemetryEventMapper.mapOnboardingProtectionAssigned` from
`src/telemetry/index.ts`. -/
def mapOnboardingProtectionAssigned (now : Int) (level trigger fileType : String)
    (ts : Rat) : Option CoreEvent :=
  parseSaveAttemptSchema now (legacyMappedCandidate "save_attempt"
    [("protection", protectionFor level),
     ("severity", severityForDefaultLow level),
     ("file_kind", .str fileType),
     ("reason", .str ("onboarding_" ++ trigger)),
     ("ai_present", .bool false),
     ("ai_burst", .bool false),
     ("outcome", .str "saved")] ts)

/-- `TelemetryEventMapper.mapSnapshotCreated` from `src/telemetry/index.ts`. -/
def mapSnapshotCreated (now : Int) (filesCount ts : Rat) : Option CoreEvent :=
  parseSnapshotCreatedSchema now (legacyMappedCandidate "snapshot_created"
    [("session_id", .str "legacy_session"),
     ("snapshot_id", .str ("snap_" ++ toString now)),
     ("bytes_original", .num (filesCount * 1024)),
     ("bytes_stored", .num (filesCount * 512)),
     ("dedup_hit", .bool false),
     ("latency_ms", .num 0)] ts)

/-- `TelemetryEventMapper.mapSnapBackUsed` from `src/telemetry/index.ts`.
The `Array(filesRestored).fill(...)` construction can throw, which the
source catches and turns into `null`. -/
def mapSnapBackUsed (now : Int) (filesRestored duration : Rat) (success : Bool)
    (ts : Rat) : Option CoreEvent :=
  match fillLegacyFiles filesRestored with
  | none => none
  | some files =>
      parseSessionRestoredSchema now (legacyMappedCandidate "session_restored"
        [("session_id", .str "legacy_session"),
         ("files_restored", .arr (files.map JVal.str)),
         ("time_to_restore_ms", .num duration),
         ("reason", .str (if success then "user_initiated" else "failed"))] ts)

/-- `TelemetryEventMapper.mapRiskDetected` from `src/telemetry/index.ts`. -/
def mapRiskDetected (now : Int) (riskLevel : String) (patterns : List String)
    (ts : Rat) : Option CoreEvent :=
  parseIssueCreatedSchema now (legacyMappedCandidate "issue_created"
    [("issue_id", .str ("issue_" ++ toString now)),
     ("session_id", .str "legacy_session"),
     ("file_kind", .str "unknown"),
     ("type", .str (riskIssueType patterns)),
     ("severity", severityForDefaultMedium riskLevel),
     ("recommendation", .str "Review detected risk pattern")] ts)

/-- `TelemetryEventMapper.mapEvent` from `src/telemetry/index.ts`: the
per-tag dispatch.  Thirteen known tags and the unknown default return
`null`. -/
def mapEvent (now : Int) (e : LegacyEvent) : Option CoreEvent :=
  match e with
  | .onboardingProtectionAssigned level trigger fileType _ ts =>
      mapOnboardingProtectionAssigned now level trigger fileType ts
  | .snapshotCreated _ filesCount ts => mapSnapshotCreated now filesCount ts
  | .snapbackUsed filesRestored duration success ts =>
      mapSnapBackUsed now filesRestored duration success ts
  | .riskDetected riskLevel patterns _ ts => mapRiskDetected now riskLevel patterns ts
  | _ => none

end TelemetryEventMapper

end Telemetry

namespace Migrate

/-- `getDurationFromEvent` from `src/events/migrate.ts`: extract the numeric
`duration` property for command-execution and snapback-used events, default
`0` for everything else. -/
def getDurationFromEvent : LegacyEvent → Rat
  | .commandExecution _ duration _ _ => duration
  | .snapbackUsed _ duration _ _ => duration
  | _ => 0

namespace TelemetryEventMapper

/-- `mapOnboardingProtectionAssigned` from `src/events/migrate.ts`: the
legacy `level` string is used directly as `protection`, `severity` defaults
to `"medium"`, and the candidate is validated before `parse`. -/
def mapOnboardingProtectionAssigned (now : Int) (e : LegacyEvent) : Option CoreEvent :=
  match e with
  | .onboardingProtectionAssigned level trigger fileType _ ts =>
      let saveAttemptEvent := legacyMappedCandidate "save_attempt"
        [("protection", .str level),
         ("severity", .str "medium"),
         ("file_kind", .str fileType),
         ("reason", .str trigger),
         ("ai_present", .bool false),
         ("ai_burst", .bool false),
         ("outcome", .str "saved")] ts
      if EventsCore.validateCoreTelemetryEvent now saveAttemptEvent then
        parseSaveAttemptSchema now saveAttemptEvent
      else none
  | _ => none

/-- `mapCommandExecution` from `src/events/migrate.ts`. -/
def mapCommandExecution (now : Int) (e : LegacyEvent) : Option CoreEvent :=
  match e with
  | .commandExecution command _ success ts =>
      let saveAttemptEvent := legacyMappedCandidate "save_attempt"
        [("protection", .str "watch"),
         ("severity", .str "low"),
         ("file_kind", .str "unknown"),
         ("reason", .str command),
         ("ai_present", .bool false),
         ("ai_burst", .bool false),
         ("outcome", .str (if success then "saved" else "canceled"))] ts
      if EventsCore.validateCoreTelemetryEvent now saveAttemptEvent then
        parseSaveAttemptSchema now saveAttemptEvent
      else none
  | _ => none

/-- `mapSnapshotCreated` from `src/events/migrate.ts`. -/
def mapSnapshotCreated (now : Int) (e : LegacyEvent) : Option CoreEvent :=
  match e with
  | .snapshotCreated _ _ ts =>
      let snapshotCreatedEvent := legacyMappedCandidate "snapshot_created"
        [("session_id", .str "unknown"),
         ("snapshot_id", .str "unknown"),
         ("bytes_original", .num 0),
         ("bytes_stored", .num 0),
         ("dedup_hit", .bool false),
         ("latency_ms", .num (getDurationFromEvent e))] ts
      if EventsCore.validateCoreTelemetryEvent now snapshotCreatedEvent then
        parseSnapshotCreatedSchema now snapshotCreatedEvent
      else none
  | _ => none

/-- `mapExtensionDeactivated` from `src/events/migrate.ts`. -/
def mapExtensionDeactivated (now : Int) (e : LegacyEvent) : Option CoreEvent :=
  match e with
  | .extensionDeactivated ts =>
      let sessionFinalizedEvent := legacyMappedCandidate "session_finalized"
        [("session_id", .str "unknown"),
         ("files", .arr []),
         ("triggers", .arr []),
         ("duration_ms", .num (getDurationFromEvent e)),
         ("ai_present", .bool false),
         ("ai_burst", .bool false),
         ("highest_severity", .str "low")] ts
      if EventsCore.validateCoreTelemetryEvent now sessionFinalizedEvent then
        parseSessionFinalizedSchemaCore now sessionFinalizedEvent
      else none
  | _ => none

/-- `mapRiskDetected` from `src/events/migrate.ts`: the issue `type` is
always the default `"phantom"` and the raw legacy `riskLevel` is used as
`severity` (so an unmapped level fails validation and yields `null`). -/
def mapRiskDetected (now : Int) (e : LegacyEvent) : Option CoreEvent :=
  match e with
  | .riskDetected riskLevel _ _ ts =>
      let issueCreatedEvent := legacyMappedCandidate "issue_created"
        [("issue_id", .str "unknown"),
         ("session_id", .str "unknown"),
         ("file_kind", .str "unknown"),
         ("type", .str "phantom"),
         ("severity", .str riskLevel),
         ("recommendation", .str "Review detected risk")] ts
      if EventsCore.validateCoreTelemetryEvent now issueCreatedEvent then
        parseIssueCreatedSchema now issueCreatedEvent
      else none
  | _ => none

/-- `mapWalkthroughStepCompleted` from `src/events/migrate.ts`. -/
def mapWalkthroughStepCompleted (now : Int) (e : LegacyEvent) : Option CoreEvent :=
  match e with
  | .walkthroughStepCompleted stepId _ ts =>
      let issueResolvedEvent := legacyMappedCandidate "issue_resolved"
        [("issue_id", .str ("onboarding-" ++ stepId)),
         ("resolution", .str "fixed")] ts
      if EventsCore.validateCoreTelemetryEvent now issueResolvedEvent then
        parseIssueResolvedSchema now issueResolvedEvent
      else none
  | _ => none

/-- `mapSnapBackUsed` from `src/events/migrate.ts`. -/
def mapSnapBackUsed (now : Int) (e : LegacyEvent) : Option CoreEvent :=
  match e with
  | .snapbackUsed _ _ _ ts =>
      let sessionRestoredEvent := legacyMappedCandidate "session_restored"
        [("session_id", .str "unknown"),
         ("files_restored", .arr []),
         ("time_to_restore_ms", .num (getDurationFromEvent e)),
         ("reason", .str "user_request")] ts
      if EventsCore.validateCoreTelemetryEvent now sessionRestoredEvent then
        parseSessionRestoredSchema now sessionRestoredEvent
      else none
  | _ => none

/-- `TelemetryEventMapper.mapEvent` from `src/events/migrate.ts`: seven
legacy tags have mapping cases, ten known tags and the unknown default
return `null`. -/
def mapEvent (now : Int) (e : LegacyEvent) : Option CoreEvent :=
  match e with
  | .onboardingProtectionAssigned _ _ _ _ _ => mapOnboardingProtectionAssigned now e
  | .commandExecution _ _ _ _ => mapCommandExecution now e
  | .snapshotCreated _ _ _ => mapSnapshotCreated now e
  | .extensionDeactivated _ => mapExtensionDeactivated now e
  | .riskDetected _ _ _ _ => mapRiskDetected now e
  | .walkthroughStepCompleted _ _ _ => mapWalkthroughStepCompleted now e
  | .snapbackUsed _ _ _ _ => mapSnapBackUsed now e
  | _ => none

end TelemetryEventMapper

end Migrate

/-- The conversion loop of `main` in the migration script
(`migrate-events.ts` lines 43-53): apply the telemetry mapper to each legacy
event in order, collecting mapped results and unmapped inputs in two
order-preserving buckets. -/
def mainPartitionEvents (now : Int) : List LegacyEvent → List CoreEvent × List LegacyEvent
  | [] => ([], [])
  | e :: rest =>
    let r := mainPartitionEvents now rest
    match Telemetry.TelemetryEventMapper.mapEvent now e with
    | some c => (c :: r.1, r.2)
    | none => (r.1, e :: r.2)

/-- Character-level first-occurrence replacement: scan left to right, and at
the first position where `pat` is a prefix, splice in `rep`. -/
def replaceFirstChars (pat rep : List Char) : List Char → List Char
  | [] => []
  | c :: rest =>
    if pat.isPrefixOf (c :: rest) then rep ++ (c :: rest).drop pat.length
    else c :: replaceFirstChars pat rep rest

/-- First-occurrence string replacement, the semantics of JavaScript
`s.replace(pat, rep)` with a (non-empty) string pattern. -/
def replaceFirst (s pat rep : String) : String :=
  ⟨replaceFirstChars pat.toList rep.toList s.toList⟩

/-- Content of an output file written by the migration script. -/
inductive FileContent where
  | coreEvents (l : List CoreEvent)
  | legacyEvents (l : List LegacyEvent)
deriving DecidableEq

/-- The file writes `main` performs after a successful read and parse
(`migrate-events.ts` lines 58-67): always the mapped events to
`outputFile`; additionally, when some events were unmapped, those to
`outputFile.replace(".json", "-unmapped.json")`.  The `inputFile` argument
is the first CLI argument; `main` only ever reads from it. -/
def mainWrites (now : Int) (inputFile outputFile : String) (events : List LegacyEvent) :
    List (String × FileContent) :=
  let r := mainPartitionEvents now events
  let base := [(outputFile, FileContent.coreEvents r.1)]
  if r.2.length > 0 then
    base ++ [(replaceFirst outputFile ".json" "-unmapped.json", FileContent.legacyEvents r.2)]
  else base

/-- Modelled from the spec (claim C5's wording): the name the spec says the
second file gets, namely "the input file name with an `-unmapped` suffix
inserted before the extension". -/
def specUnmappedName (inputFile : String) : String :=
  replaceFirst inputFile ".json" "-unmapped.json"

/-- A session trigger (`SessionTriggerSchema`): one of `"filewatch"`,
`"pre-commit"`, `"manual"`, `"idle-finalize"`. -/
inductive SessionTrigger where
  | filewatch
  | preCommit
  | manual
  | idleFinalize
deriving DecidableEq

/-- `encodeTriggerBitmask`: bitwise OR of each trigger's fixed bit
(filewatch 1, pre-commit 2, manual 4, idle-finalize 8), starting from 0. -/
def encodeTriggerBitmask (triggers : List SessionTrigger) : Nat :=
  triggers.foldl
    (fun mask trigger =>
      match trigger with
      | .filewatch => mask ||| 1
      | .preCommit => mask ||| 2
      | .manual => mask ||| 4
      | .idleFinalize => mask ||| 8)
    0

/-- `decodeTriggerBitmask`: test the four known bits in ascending order and
emit the trigger for each set bit; other bits are ignored.  Masks are the
non-negative integers the encoder produces. -/
def decodeTriggerBitmask (mask : Nat) : List SessionTrigger :=
  (if mask &&& 1 ≠ 0 then [SessionTrigger.filewatch] else []) ++
  (if mask &&& 2 ≠ 0 then [SessionTrigger.preCommit] else []) ++
  (if mask &&& 4 ≠ 0 then [SessionTrigger.manual] else []) ++
  (if mask &&& 8 ≠ 0 then [SessionTrigger.idleFinalize] else [])

/-- A risk scale (`RiskScale`): `"0-1"`, `"0-10"` or `"0-100"`. -/
inductive RiskScale where
  | zeroOne
  | zeroTen
  | zeroHundred
deriving DecidableEq

/-- `convertRisk_0_1_to_0_10` from the risk-conversion utilities. -/
def convertRisk_0_1_to_0_10 (score : Rat) : Rat :=
  min 10 (max 0 (score * 10))

/-- `convertRisk_0_10_to_0_1` from the risk-conversion utilities. -/
def convertRisk_0_10_to_0_1 (score : Rat) : Rat :=
  min 1 (max 0 (score / 10))

/-- `convertRisk_0_100_to_0_10` from the risk-conversion utilities. -/
def convertRisk_0_100_to_0_10 (score : Rat) : Rat :=
  min 10 (max 0 (score / 10))

/-- `normalizeRiskScore`: normalize a score from any supported scale to the
standard 0-10 scale. -/
def normalizeRiskScore (score : Rat) (fromScale : RiskScale) : Rat :=
  match fromScale with
  | .zeroOne => convertRisk_0_1_to_0_10 score
  | .zeroTen => min 10 (max 0 score)
  | .zeroHundred => convertRisk_0_100_to_0_10 score

/-- `getSeverity`: clamp the score to `[0, 10]` and bucket it by the
standard thresholds. -/
def getSeverity (score : Rat) : String :=
  let normalizedScore := min 10 (max 0 score)
  if normalizedScore < 3 then "low"
  else if normalizedScore < 5 then "medium"
  else if normalizedScore < 7 then "high"
  else "critical"

theorem asEnum_mem {allowed : List String} {v : Option JVal} {s : String}
    (h : asEnum allowed v = some s) : allowed.contains s = true := by
  unfold asEnum at h
  split at h
  · split at h
    · injection h with h
      subst h
      assumption
    · cases h
  · cases h

theorem asEnum_of_mem {allowed : List String} {s : String}
    (h : allowed.contains s = true) : asEnum allowed (some (.str s)) = some s := by
  simp only [asEnum, h, if_true]

theorem parseEventSchema_candidate {α : Type} (tagLit : String)
    (ctor : String → Rat → α → CoreEvent) (pp : List (String × JVal) → Option α)
    (now : Int) (pv : List (String × JVal)) (ts : Rat) {pr : α}
    (hp : pp pv = some pr) :
    parseEventSchema tagLit ctor pp now (legacyMappedCandidate tagLit pv ts) =
      some (ctor "1.0.0" ts pr) := by
  simp [parseEventSchema, legacyMappedCandidate, getField, asString, asObj,
    asStringWithDefault, asNumberWithDefault, hp]

theorem parseEventSchema_candidate_inv {α : Type} {tagLit tag2 : String}
    {ctor : String → Rat → α → CoreEvent} {pp : List (String × JVal) → Option α}
    {now : Int} {pv : List (String × JVal)} {ts : Rat} {c : CoreEvent}
    (h : parseEventSchema tagLit ctor pp now (legacyMappedCandidate tag2 pv ts) = some c) :
    ∃ pr, pp pv = some pr ∧ c = ctor "1.0.0" ts pr := by
  simp only [parseEventSchema, legacyMappedCandidate, getField, asString, asObj,
    asStringWithDefault, asNumberWithDefault] at h
  simp at h
  split at h
  · rename_i props ev ts2 hpr hev hts
    obtain ⟨-, h⟩ := h
    injection h with h
    injection hev with hev
    injection hts with hts
    subst hev
    subst hts
    exact ⟨props, hpr, h.symm⟩
  · exact absurd h.2 (by simp)

theorem parseSaveAttemptProps_enum {pv : List (String × JVal)} {pr : SaveAttemptProps}
    (h : parseSaveAttemptProps pv = some pr) :
    (["watch", "warn", "block"].contains pr.protection &&
     ["low", "medium", "high", "critical"].contains pr.severity &&
     ["saved", "canceled", "blocked"].contains pr.outcome) = true := by
  unfold parseSaveAttemptProps at h
  split at h
  · rename_i p sev fk r a1 a2 o hp hs hfk hr ha1 ha2 ho
    injection h with h
    subst h
    have h1 := asEnum_mem hp
    have h2 := asEnum_mem hs
    have h3 := asEnum_mem ho
    simp at h1 h2 h3 ⊢
    exact ⟨⟨h1, h2⟩, h3⟩
  · cases h

theorem parseIssueCreatedProps_enum {pv : List (String × JVal)} {pr : IssueCreatedProps}
    (h : parseIssueCreatedProps pv = some pr) :
    (["secret", "mock", "phantom"].contains pr.type &&
     ["low", "medium", "high", "critical"].contains pr.severity) = true := by
  unfold parseIssueCreatedProps at h
  split at h
  · rename_i iid sid fk ty sev rec hiid hsid hfk hty hsev hrec
    injection h with h
    subst h
    have h1 := asEnum_mem hty
    have h2 := asEnum_mem hsev
    simp at h1 h2 ⊢
    exact ⟨h1, h2⟩
  · cases h

theorem parseIssueResolvedProps_enum {pv : List (String × JVal)} {pr : IssueResolvedProps}
    (h : parseIssueResolvedProps pv = some pr) :
    ["fixed", "ignored", "allowlisted"].contains pr.resolution = true := by
  unfold parseIssueResolvedProps at h
  split at h
  · rename_i iid res hiid hres
    injection h with h
    subst h
    simpa using asEnum_mem hres
  · cases h

theorem parseSessionFinalizedPropsV1_enum {pv : List (String × JVal)}
    {pr : SessionFinalizedProps} (h : parseSessionFinalizedPropsV1 pv = some pr) :
    ["low", "medium", "high", "critical"].contains pr.highest_severity = true := by
  unfold parseSessionFinalizedPropsV1 at h
  split at h
  · rename_i sid files triggers dur a1 a2 hs hsid hfiles htr hdur ha1 ha2 hhs
    injection h with h
    subst h
    simpa using asEnum_mem hhs
  · cases h

theorem parseSessionFinalizedPropsCore_enum {pv : List (String × JVal)}
    {pr : SessionFinalizedProps} (h : parseSessionFinalizedPropsCore pv = some pr) :
    ["low", "medium", "high", "critical"].contains pr.highest_severity = true := by
  unfold parseSessionFinalizedPropsCore at h
  split at h
  · rename_i base al cs prov lic tc hbase hal hcs hprov hlic htc
    injection h with h
    subst h
    simpa using parseSessionFinalizedPropsV1_enum hbase
  · cases h

theorem telemetry_mapOnboarding_inv {now : Int} {level trigger fileType : String}
    {ts : Rat} {c : CoreEvent}
    (h : Telemetry.TelemetryEventMapper.mapOnboardingProtectionAssigned
      now level trigger fileType ts = some c) :
    ∃ pv pr, parseSaveAttemptProps pv = some pr ∧
      c = CoreEvent.save_attempt "1.0.0" ts pr := by
  unfold Telemetry.TelemetryEventMapper.mapOnboardingProtectionAssigned
    parseSaveAttemptSchema at h
  obtain ⟨pr, hpr, rfl⟩ := parseEventSchema_candidate_inv h
  exact ⟨_, pr, hpr, rfl⟩

theorem telemetry_mapSnapshotCreated_inv {now : Int} {filesCount ts : Rat} {c : CoreEvent}
    (h : Telemetry.TelemetryEventMapper.mapSnapshotCreated now filesCount ts = some c) :
    ∃ pv pr, parseSnapshotCreatedProps pv = some pr ∧
      c = CoreEvent.snapshot_created "1.0.0" ts pr := by
  unfold Telemetry.TelemetryEventMapper.mapSnapshotCreated parseSnapshotCreatedSchema at h
  obtain ⟨pr, hpr, rfl⟩ := parseEventSchema_candidate_inv h
  exact ⟨_, pr, hpr, rfl⟩

theorem telemetry_mapSnapBackUsed_inv {now : Int} {filesRestored duration : Rat}
    {success : Bool} {ts : Rat} {c : CoreEvent}
    (h : Telemetry.TelemetryEventMapper.mapSnapBackUsed now filesRestored duration success ts
      = some c) :
    ∃ pv pr, parseSessionRestoredProps pv = some pr ∧
      c = CoreEvent.session_restored "1.0.0" ts pr := by
  unfold Telemetry.TelemetryEventMapper.mapSnapBackUsed at h
  split at h
  · cases h
  · unfold parseSessionRestoredSchema at h
    obtain ⟨pr, hpr, rfl⟩ := parseEventSchema_candidate_inv h
    exact ⟨_, pr, hpr, rfl⟩

theorem telemetry_mapRiskDetected_inv {now : Int} {riskLevel : String}
    {patterns : List String} {ts : Rat} {c : CoreEvent}
    (h : Telemetry.TelemetryEventMapper.mapRiskDetected now riskLevel patterns ts = some c) :
    ∃ pv pr, parseIssueCreatedProps pv = some pr ∧
      c = CoreEvent.issue_created "1.0.0" ts pr := by
  unfold Telemetry.TelemetryEventMapper.mapRiskDetected parseIssueCreatedSchema at h
  obtain ⟨pr, hpr, rfl⟩ := parseEventSchema_candidate_inv h
  exact ⟨_, pr, hpr, rfl⟩

theorem migrate_mapOnboarding_inv {now : Int} {e : LegacyEvent} {c : CoreEvent}
    (h : Migrate.TelemetryEventMapper.mapOnboardingProtectionAssigned now e = some c) :
    ∃ pv pr ts, parseSaveAttemptProps pv = some pr ∧
      e.timestamp = ts ∧ c = CoreEvent.save_attempt "1.0.0" ts pr := by
  unfold Migrate.TelemetryEventMapper.mapOnboardingProtectionAssigned parseSaveAttemptSchema at h
  split at h
  · simp only [] at h
    repeat' split at h
    all_goals first
      | (obtain ⟨pr, hpr, rfl⟩ := parseEventSchema_candidate_inv h
         exact ⟨_, pr, _, hpr, rfl, rfl⟩)
      | cases h
  · cases h

theorem migrate_mapCommandExecution_inv {now : Int} {e : LegacyEvent} {c : CoreEvent}
    (h : Migrate.TelemetryEventMapper.mapCommandExecution now e = some c) :
    ∃ pv pr ts, parseSaveAttemptProps pv = some pr ∧
      e.timestamp = ts ∧ c = CoreEvent.save_attempt "1.0.0" ts pr := by
  unfold Migrate.TelemetryEventMapper.mapCommandExecution parseSaveAttemptSchema at h
  split at h
  · simp only [] at h
    repeat' split at h
    all_goals first
      | (obtain ⟨pr, hpr, rfl⟩ := parseEventSchema_candidate_inv h
         exact ⟨_, pr, _, hpr, rfl, rfl⟩)
      | cases h
  · cases h

theorem migrate_mapSnapshotCreated_inv {now : Int} {e : LegacyEvent} {c : CoreEvent}
    (h : Migrate.TelemetryEventMapper.mapSnapshotCreated now e = some c) :
    ∃ pv pr ts, parseSnapshotCreatedProps pv = some pr ∧
      e.timestamp = ts ∧ c = CoreEvent.snapshot_created "1.0.0" ts pr := by
  unfold Migrate.TelemetryEventMapper.mapSnapshotCreated parseSnapshotCreatedSchema at h
  split at h
  · simp only [] at h
    repeat' split at h
    all_goals first
      | (obtain ⟨pr, hpr, rfl⟩ := parseEventSchema_candidate_inv h
         exact ⟨_, pr, _, hpr, rfl, rfl⟩)
      | cases h
  · cases h

theorem migrate_mapExtensionDeactivated_inv {now : Int} {e : LegacyEvent} {c : CoreEvent}
    (h : Migrate.TelemetryEventMapper.mapExtensionDeactivated now e = some c) :
    ∃ pv pr ts, parseSessionFinalizedPropsCore pv = some pr ∧
      e.timestamp = ts ∧ c = CoreEvent.session_finalized "1.0.0" ts pr := by
  unfold Migrate.TelemetryEventMapper.mapExtensionDeactivated parseSessionFinalizedSchemaCore at h
  split at h
  · simp only [] at h
    repeat' split at h
    all_goals first
      | (obtain ⟨pr, hpr, rfl⟩ := parseEventSchema_candidate_inv h
         exact ⟨_, pr, _, hpr, rfl, rfl⟩)
      | cases h
  · cases h

theorem migrate_mapRiskDetected_inv {now : Int} {e : LegacyEvent} {c : CoreEvent}
    (h : Migrate.TelemetryEventMapper.mapRiskDetected now e = some c) :
    ∃ pv pr ts, parseIssueCreatedProps pv = some pr ∧
      e.timestamp = ts ∧ c = CoreEvent.issue_created "1.0.0" ts pr := by
  unfold Migrate.TelemetryEventMapper.mapRiskDetected parseIssueCreatedSchema at h
  split at h
  · simp only [] at h
    repeat' split at h
    all_goals first
      | (obtain ⟨pr, hpr, rfl⟩ := parseEventSchema_candidate_inv h
         exact ⟨_, pr, _, hpr, rfl, rfl⟩)
      | cases h
  · cases h

theorem migrate_mapWalkthrough_inv {now : Int} {e : LegacyEvent} {c : CoreEvent}
    (h : Migrate.TelemetryEventMapper.mapWalkthroughStepCompleted now e = some c) :
    ∃ pv pr ts, parseIssueResolvedProps pv = some pr ∧
      e.timestamp = ts ∧ c = CoreEvent.issue_resolved "1.0.0" ts pr := by
  unfold Migrate.TelemetryEventMapper.mapWalkthroughStepCompleted parseIssueResolvedSchema at h
  split at h
  · simp only [] at h
    repeat' split at h
    all_goals first
      | (obtain ⟨pr, hpr, rfl⟩ := parseEventSchema_candidate_inv h
         exact ⟨_, pr, _, hpr, rfl, rfl⟩)
      | cases h
  · cases h

theorem migrate_mapSnapBackUsed_inv {now : Int} {e : LegacyEvent} {c : CoreEvent}
    (h : Migrate.TelemetryEventMapper.mapSnapBackUsed now e = some c) :
    ∃ pv pr ts, parseSessionRestoredProps pv = some pr ∧
      e.timestamp = ts ∧ c = CoreEvent.session_restored "1.0.0" ts pr := by
  unfold Migrate.TelemetryEventMapper.mapSnapBackUsed parseSessionRestoredSchema at h
  split at h
  · simp only [] at h
    repeat' split at h
    all_goals first
      | (obtain ⟨pr, hpr, rfl⟩ := parseEventSchema_candidate_inv h
         exact ⟨_, pr, _, hpr, rfl, rfl⟩)
      | cases h
  · cases h

/-- Claim C1: for every legacy event value, `mapEvent` (in both the
`src/telemetry/index.ts` and the `src/events/migrate.ts` implementation)
returns either a canonical event or `null` and never throws: the result is an
`Option` by construction, every known legacy tag is dispatched to an explicit
case, any returned event is a well-formed canonical event (internal
construction failures are downgraded to `none` rather than propagated), and
an unrecognized tag yields `none`. -/
theorem mapEvent_total_canonical_or_none (now : Int) (e : LegacyEvent) :
    (∀ c, Telemetry.TelemetryEventMapper.mapEvent now e = some c → c.wf = true)
    ∧ (∀ c, Migrate.TelemetryEventMapper.mapEvent now e = some c → c.wf = true)
    ∧ (∀ tag ts, Telemetry.TelemetryEventMapper.mapEvent now (.unknownEvent tag ts) = none)
    ∧ (∀ tag ts, Migrate.TelemetryEventMapper.mapEvent now (.unknownEvent tag ts) = none) := by
  refine ⟨?_, ?_, fun tag ts => rfl, fun tag ts => rfl⟩
  · intro c h
    cases e with
    | onboardingProtectionAssigned level trigger fileType first ts =>
        simp only [Telemetry.TelemetryEventMapper.mapEvent] at h
        obtain ⟨pv, pr, hpr, rfl⟩ := telemetry_mapOnboarding_inv h
        simpa [CoreEvent.wf] using parseSaveAttemptProps_enum hpr
    | snapshotCreated m fc ts =>
        simp only [Telemetry.TelemetryEventMapper.mapEvent] at h
        obtain ⟨pv, pr, hpr, rfl⟩ := telemetry_mapSnapshotCreated_inv h
        rfl
    | snapbackUsed fr dur succ ts =>
        simp only [Telemetry.TelemetryEventMapper.mapEvent] at h
        obtain ⟨pv, pr, hpr, rfl⟩ := telemetry_mapSnapBackUsed_inv h
        rfl
    | riskDetected rl pats conf ts =>
        simp only [Telemetry.TelemetryEventMapper.mapEvent] at h
        obtain ⟨pv, pr, hpr, rfl⟩ := telemetry_mapRiskDetected_inv h
        simpa [CoreEvent.wf] using parseIssueCreatedProps_enum hpr
    | extensionActivated v vv ts => exact Option.noConfusion h
    | extensionDeactivated ts => exact Option.noConfusion h
    | commandExecution cmd dur succ ts => exact Option.noConfusion h
    | viewActivated vid ts => exact Option.noConfusion h
    | notificationShown nt at_ ts => exact Option.noConfusion h
    | featureUsed f ts => exact Option.noConfusion h
    | errorEvent et em ts => exact Option.noConfusion h
    | walkthroughStepCompleted sid st ts => exact Option.noConfusion h
    | onboardingPhaseProgressed ph tr uf ts => exact Option.noConfusion h
    | onboardingContextualPromptShown pt at_ ts => exact Option.noConfusion h
    | signatureVerificationSuccess ts => exact Option.noConfusion h
    | signatureVerificationFailed ts => exact Option.noConfusion h
    | rulesCachedFallback ts => exact Option.noConfusion h
    | unknownEvent tag ts => exact Option.noConfusion h
  · intro c h
    cases e with
    | onboardingProtectionAssigned level trigger fileType first ts =>
        simp only [Migrate.TelemetryEventMapper.mapEvent] at h
        obtain ⟨pv, pr, ts2, hpr, hts, rfl⟩ := migrate_mapOnboarding_inv h
        simpa [CoreEvent.wf] using parseSaveAttemptProps_enum hpr
    | commandExecution cmd dur succ ts =>
        simp only [Migrate.TelemetryEventMapper.mapEvent] at h
        obtain ⟨pv, pr, ts2, hpr, hts, rfl⟩ := migrate_mapCommandExecution_inv h
        simpa [CoreEvent.wf] using parseSaveAttemptProps_enum hpr
    | snapshotCreated m fc ts =>
        simp only [Migrate.TelemetryEventMapper.mapEvent] at h
        obtain ⟨pv, pr, ts2, hpr, hts, rfl⟩ := migrate_mapSnapshotCreated_inv h
        rfl
    | extensionDeactivated ts =>
        simp only [Migrate.TelemetryEventMapper.mapEvent] at h
        obtain ⟨pv, pr, ts2, hpr, hts, rfl⟩ := migrate_mapExtensionDeactivated_inv h
        simpa [CoreEvent.wf] using parseSessionFinalizedPropsCore_enum hpr
    | riskDetected rl pats conf ts =>
        simp only [Migrate.TelemetryEventMapper.mapEvent] at h
        obtain ⟨pv, pr, ts2, hpr, hts, rfl⟩ := migrate_mapRiskDetected_inv h
        simpa [CoreEvent.wf] using parseIssueCreatedProps_enum hpr
    | walkthroughStepCompleted sid st ts =>
        simp only [Migrate.TelemetryEventMapper.mapEvent] at h
        obtain ⟨pv, pr, ts2, hpr, hts, rfl⟩ := migrate_mapWalkthrough_inv h
        simpa [CoreEvent.wf] using parseIssueResolvedProps_enum hpr
    | snapbackUsed fr dur succ ts =>
        simp only [Migrate.TelemetryEventMapper.mapEvent] at h
        obtain ⟨pv, pr, ts2, hpr, hts, rfl⟩ := migrate_mapSnapBackUsed_inv h
        rfl
    | extensionActivated v vv ts => exact Option.noConfusion h
    | viewActivated vid ts => exact Option.noConfusion h
    | notificationShown nt at_ ts => exact Option.noConfusion h
    | featureUsed f ts => exact Option.noConfusion h
    | errorEvent et em ts => exact Option.noConfusion h
    | onboardingPhaseProgressed ph tr uf ts => exact Option.noConfusion h
    | onboardingContextualPromptShown pt at_ ts => exact Option.noConfusion h
    | signatureVerificationSuccess ts => exact Option.noConfusion h
    | signatureVerificationFailed ts => exact Option.noConfusion h
    | rulesCachedFallback ts => exact Option.noConfusion h
    | unknownEvent tag ts => exact Option.noConfusion h

/-- Witness for claim C1, applying the theorem at concrete inputs: a mapped
risk-detection event through the telemetry mapper, a mapped walkthrough event
through the migrate mapper, and an unknown tag through both. -/
theorem mapEvent_total_canonical_or_none_witness :
    (CoreEvent.issue_created "1.0.0" 5
      ⟨"issue_0", "legacy_session", "unknown", "secret", "high",
        "Review detected risk pattern"⟩).wf = true
    ∧ (CoreEvent.issue_resolved "1.0.0" 7 ⟨"onboarding-s1", "fixed"⟩).wf = true
    ∧ Telemetry.TelemetryEventMapper.mapEvent 0 (.unknownEvent "zzz" 1) = none
    ∧ Migrate.TelemetryEventMapper.mapEvent 0 (.unknownEvent "zzz" 1) = none :=
  ⟨(mapEvent_total_canonical_or_none 0 (.riskDetected "high" ["x"] 1 5)).1 _ rfl,
   (mapEvent_total_canonical_or_none 0 (.walkthroughStepCompleted "s1" "t" 7)).2.1 _ rfl,
   (mapEvent_total_canonical_or_none 0 (.unknownEvent "zzz" 1)).2.2.1 "zzz" 1,
   (mapEvent_total_canonical_or_none 0 (.unknownEvent "zzz" 1)).2.2.2 "zzz" 1⟩

/-- Claim C10: whenever either mapper implementation maps a legacy event to a
canonical event, the canonical event's envelope `timestamp` equals the legacy
event's `timestamp`; no default or fresh capture time is substituted. -/
theorem mapEvent_preserves_timestamp (now : Int) (e : LegacyEvent) :
    (∀ c, Telemetry.TelemetryEventMapper.mapEvent now e = some c →
      c.timestamp = e.timestamp)
    ∧ (∀ c, Migrate.TelemetryEventMapper.mapEvent now e = some c →
      c.timestamp = e.timestamp) := by
  constructor
  · intro c h
    cases e with
    | onboardingProtectionAssigned level trigger fileType first ts =>
        simp only [Telemetry.TelemetryEventMapper.mapEvent] at h
        obtain ⟨pv, pr, hpr, rfl⟩ := telemetry_mapOnboarding_inv h
        rfl
    | snapshotCreated m fc ts =>
        simp only [Telemetry.TelemetryEventMapper.mapEvent] at h
        obtain ⟨pv, pr, hpr, rfl⟩ := telemetry_mapSnapshotCreated_inv h
        rfl
    | snapbackUsed fr dur succ ts =>
        simp only [Telemetry.TelemetryEventMapper.mapEvent] at h
        obtain ⟨pv, pr, hpr, rfl⟩ := telemetry_mapSnapBackUsed_inv h
        rfl
    | riskDetected rl pats conf ts =>
        simp only [Telemetry.TelemetryEventMapper.mapEvent] at h
        obtain ⟨pv, pr, hpr, rfl⟩ := telemetry_mapRiskDetected_inv h
        rfl
    | extensionActivated v vv ts => exact Option.noConfusion h
    | extensionDeactivated ts => exact Option.noConfusion h
    | commandExecution cmd dur succ ts => exact Option.noConfusion h
    | viewActivated vid ts => exact Option.noConfusion h
    | notificationShown nt at_ ts => exact Option.noConfusion h
    | featureUsed f ts => exact Option.noConfusion h
    | errorEvent et em ts => exact Option.noConfusion h
    | walkthroughStepCompleted sid st ts => exact Option.noConfusion h
    | onboardingPhaseProgressed ph tr uf ts => exact Option.noConfusion h
    | onboardingContextualPromptShown pt at_ ts => exact Option.noConfusion h
    | signatureVerificationSuccess ts => exact Option.noConfusion h
    | signatureVerificationFailed ts => exact Option.noConfusion h
    | rulesCachedFallback ts => exact Option.noConfusion h
    | unknownEvent tag ts => exact Option.noConfusion h
  · intro c h
    cases e with
    | onboardingProtectionAssigned level trigger fileType first ts =>
        simp only [Migrate.TelemetryEventMapper.mapEvent] at h
        obtain ⟨pv, pr, ts2, hpr, hts, rfl⟩ := migrate_mapOnboarding_inv h
        exact hts.symm
    | commandExecution cmd dur succ ts =>
        simp only [Migrate.TelemetryEventMapper.mapEvent] at h
        obtain ⟨pv, pr, ts2, hpr, hts, rfl⟩ := migrate_mapCommandExecution_inv h
        exact hts.symm
    | snapshotCreated m fc ts =>
        simp only [Migrate.TelemetryEventMapper.mapEvent] at h
        obtain ⟨pv, pr, ts2, hpr, hts, rfl⟩ := migrate_mapSnapshotCreated_inv h
        exact hts.symm
    | extensionDeactivated ts =>
        simp only [Migrate.TelemetryEventMapper.mapEvent] at h
        obtain ⟨pv, pr, ts2, hpr, hts, rfl⟩ := migrate_mapExtensionDeactivated_inv h
        exact hts.symm
    | riskDetected rl pats conf ts =>
        simp only [Migrate.TelemetryEventMapper.mapEvent] at h
        obtain ⟨pv, pr, ts2, hpr, hts, rfl⟩ := migrate_mapRiskDetected_inv h
        exact hts.symm
    | walkthroughStepCompleted sid st ts =>
        simp only [Migrate.TelemetryEventMapper.mapEvent] at h
        obtain ⟨pv, pr, ts2, hpr, hts, rfl⟩ := migrate_mapWalkthrough_inv h
        exact hts.symm
    | snapbackUsed fr dur succ ts =>
        simp only [Migrate.TelemetryEventMapper.mapEvent] at h
        obtain ⟨pv, pr, ts2, hpr, hts, rfl⟩ := migrate_mapSnapBackUsed_inv h
        exact hts.symm
    | extensionActivated v vv ts => exact Option.noConfusion h
    | viewActivated vid ts => exact Option.noConfusion h
    | notificationShown nt at_ ts => exact Option.noConfusion h
    | featureUsed f ts => exact Option.noConfusion h
    | errorEvent et em ts => exact Option.noConfusion h
    | onboardingPhaseProgressed ph tr uf ts => exact Option.noConfusion h
    | onboardingContextualPromptShown pt at_ ts => exact Option.noConfusion h
    | signatureVerificationSuccess ts => exact Option.noConfusion h
    | signatureVerificationFailed ts => exact Option.noConfusion h
    | rulesCachedFallback ts => exact Option.noConfusion h
    | unknownEvent tag ts => exact Option.noConfusion h

/-- Witness for claim C10: a protection-assignment event with timestamp 1000
is mapped by both implementations, and both results carry timestamp 1000. -/
theorem mapEvent_preserves_timestamp_witness :
    (CoreEvent.save_attempt "1.0.0" 1000
      ⟨"watch", "low", "ts", "onboarding_manual", false, false, "saved"⟩).timestamp
        = (LegacyEvent.onboardingProtectionAssigned "watch" "manual" "ts" true 1000).timestamp
    ∧ (CoreEvent.save_attempt "1.0.0" 1000
      ⟨"watch", "medium", "ts", "manual", false, false, "saved"⟩).timestamp
        = (LegacyEvent.onboardingProtectionAssigned "watch" "manual" "ts" true 1000).timestamp :=
  ⟨(mapEvent_preserves_timestamp 0
      (.onboardingProtectionAssigned "watch" "manual" "ts" true 1000)).1 _ rfl,
   (mapEvent_preserves_timestamp 0
      (.onboardingProtectionAssigned "watch" "manual" "ts" true 1000)).2 _ rfl⟩

/-- Modelled from the spec's words (claim C2): the severity of a mapped
risk-detection event is "the legacy risk level carried over directly", with
levels outside the severity enumeration "defaulting to medium". -/
def specSeverityCarry (riskLevel : String) : String :=
  if ["low", "medium", "high", "critical"].contains riskLevel then riskLevel else "medium"

theorem severityForDefaultMedium_eq_spec (riskLevel : String)
    (h : objectPrototypeKeys.contains riskLevel = false) :
    Telemetry.severityForDefaultMedium riskLevel = .str (specSeverityCarry riskLevel) := by
  unfold Telemetry.severityForDefaultMedium specSeverityCarry
  repeat' split
  all_goals simp_all

theorem severityForDefaultMedium_inherited {riskLevel : String}
    (h : objectPrototypeKeys.contains riskLevel = true) :
    Telemetry.severityForDefaultMedium riskLevel = .fn riskLevel := by
  unfold Telemetry.severityForDefaultMedium
  have hne : ∀ s, s ∈ (["low", "medium", "high", "critical"] : List String) →
      riskLevel ≠ s := by
    intro s hs heq
    subst heq
    revert h
    fin_cases hs <;> decide
  rw [if_neg (hne "low" (by decide)), if_neg (hne "medium" (by decide)),
    if_neg (hne "high" (by decide)), if_neg (hne "critical" (by decide)), if_pos h]

theorem specSeverityCarry_mem (riskLevel : String) :
    ["low", "medium", "high", "critical"].contains (specSeverityCarry riskLevel) = true := by
  unfold specSeverityCarry
  split
  · assumption
  · decide

theorem riskIssueType_mem (patterns : List String) :
    ["secret", "mock", "phantom"].contains (Telemetry.riskIssueType patterns) = true := by
  unfold Telemetry.riskIssueType
  split
  · decide
  · split <;> decide

theorem parseIssueCreatedProps_forward (iid sid fk : String) {ty sev : String} (rec : String)
    (hty : ["secret", "mock", "phantom"].contains ty = true)
    (hsev : ["low", "medium", "high", "critical"].contains sev = true) :
    parseIssueCreatedProps
      [("issue_id", .str iid), ("session_id", .str sid), ("file_kind", .str fk),
       ("type", .str ty), ("severity", .str sev), ("recommendation", .str rec)]
      = some ⟨iid, sid, fk, ty, sev, rec⟩ := by
  simp [parseIssueCreatedProps, getField, asString, asEnum_of_mem hty, asEnum_of_mem hsev]

/-- Counterexample to claim C2 as stated: the risk level `"constructor"` is
outside `{low, medium, high, critical}`, so the claim requires an
`issue_created` event with severity `medium`; but the source's
`severityMap["constructor"]` finds the truthy function inherited from
`Object.prototype`, the `|| "medium"` fallback is skipped,
`IssueCreatedSchema.parse` throws on the non-string severity and `mapEvent`
returns `null`. -/
theorem riskDetected_prototype_level_counterexample :
    Telemetry.TelemetryEventMapper.mapEvent 0
        (.riskDetected "constructor" ["mock_test_helper"] 1 5) = none
    ∧ ("constructor" ∉ (["low", "medium", "high", "critical"] : List String)) := by
  exact ⟨rfl, by decide⟩

/-- Claim C2 (amended): every legacy risk-detection event whose risk level is
not the name of an inherited `Object.prototype` member maps (via the
telemetry mapper, the one the migration driver uses) to an `issue_created`
canonical event whose `type` is chosen by substring inspection of the
pattern list and whose `severity` is the legacy risk level carried over
directly with a `medium` default for other unmapped levels; a risk level
naming an inherited `Object.prototype` member makes the severity lookup
yield a truthy non-string, the parse fails and `mapEvent` returns `null`.
In particular, patterns `["mock_test_helper"]` with risk level `"high"`
yield type `mock` and severity `high`. -/
theorem riskDetected_maps_by_pattern_inspection (now : Int) (riskLevel : String)
    (patterns : List String) (confidence ts : Rat) :
    (objectPrototypeKeys.contains riskLevel = false →
      Telemetry.TelemetryEventMapper.mapEvent now
          (.riskDetected riskLevel patterns confidence ts)
        = some (.issue_created "1.0.0" ts
            ⟨"issue_" ++ toString now, "legacy_session", "unknown",
              Telemetry.riskIssueType patterns, specSeverityCarry riskLevel,
              "Review detected risk pattern"⟩))
    ∧ (objectPrototypeKeys.contains riskLevel = true →
      Telemetry.TelemetryEventMapper.mapEvent now
          (.riskDetected riskLevel patterns confidence ts) = none)
    ∧ Telemetry.riskIssueType patterns =
        (if patterns.any fun p => containsSub "mock" p || containsSub "test" p then "mock"
         else if patterns.any fun p => containsSub "phantom" p || containsSub "unused" p then
           "phantom"
         else "secret")
    ∧ Telemetry.TelemetryEventMapper.mapEvent 0
        (.riskDetected "high" ["mock_test_helper"] 1 1700000000000)
      = some (.issue_created "1.0.0" 1700000000000
          ⟨"issue_0", "legacy_session", "unknown", "mock", "high",
            "Review detected risk pattern"⟩) := by
  refine ⟨?_, ?_, rfl, rfl⟩
  · intro h
    show Telemetry.TelemetryEventMapper.mapRiskDetected now riskLevel patterns ts = _
    unfold Telemetry.TelemetryEventMapper.mapRiskDetected parseIssueCreatedSchema
    rw [severityForDefaultMedium_eq_spec riskLevel h]
    exact parseEventSchema_candidate _ _ _ _ _ _
      (parseIssueCreatedProps_forward _ _ _ _ (riskIssueType_mem patterns)
        (specSeverityCarry_mem riskLevel))
  · intro h
    show Telemetry.TelemetryEventMapper.mapRiskDetected now riskLevel patterns ts = _
    unfold Telemetry.TelemetryEventMapper.mapRiskDetected parseIssueCreatedSchema
    rw [severityForDefaultMedium_inherited h]
    simp [parseEventSchema, legacyMappedCandidate, getField, asString, asObj,
      parseIssueCreatedProps, asEnum]

/-- Witness for claim C2 (amended): a risk level outside the enumeration and
outside the inherited names defaults to severity `medium`, while the
inherited name `"toString"` makes the mapper return `null`. -/
theorem riskDetected_maps_by_pattern_inspection_witness :
    Telemetry.TelemetryEventMapper.mapEvent 0
        (.riskDetected "banana" ["secret_key"] 1 5)
      = some (.issue_created "1.0.0" 5
          ⟨"issue_0", "legacy_session", "unknown", "secret", "medium",
            "Review detected risk pattern"⟩)
    ∧ Telemetry.TelemetryEventMapper.mapEvent 0
        (.riskDetected "toString" ["secret_key"] 1 5) = none :=
  ⟨(riskDetected_maps_by_pattern_inspection 0 "banana" ["secret_key"] 1 5).1 rfl,
   (riskDetected_maps_by_pattern_inspection 0 "toString" ["secret_key"] 1 5).2.1 rfl⟩

/-- Claim C3: a concrete legacy protection-assignment event on which the two
mapper implementations both produce a canonical `save_attempt` event, but
with different property values: the telemetry mapper defaults `severity` to
`"low"` (and prefixes the reason), the migrate mapper defaults it to
`"medium"`, so the two canonical events differ. -/
theorem legacy_mappers_disagree :
    ∃ (e : LegacyEvent) (p1 p2 : SaveAttemptProps),
      Telemetry.TelemetryEventMapper.mapEvent 0 e
          = some (.save_attempt "1.0.0" 1000 p1)
      ∧ Migrate.TelemetryEventMapper.mapEvent 0 e
          = some (.save_attempt "1.0.0" 1000 p2)
      ∧ p1.severity = "low" ∧ p2.severity = "medium"
      ∧ CoreEvent.save_attempt "1.0.0" 1000 p1 ≠ CoreEvent.save_attempt "1.0.0" 1000 p2 := by
  refine ⟨.onboardingProtectionAssigned "watch" "manual" "typescript" true 1000,
    ⟨"watch", "low", "typescript", "onboarding_manual", false, false, "saved"⟩,
    ⟨"watch", "medium", "typescript", "manual", false, false, "saved"⟩,
    rfl, rfl, rfl, rfl, ?_⟩
  intro hEq
  simp at hEq

/-- Claim C4: the migration driver's conversion loop applies the mapper to
each element in order and partitions the results: the mapped output is
exactly the non-null mapper results in input order, the unmapped output is
exactly the inputs with a null mapper result in input order, and the two
output lengths sum to the input length. -/
theorem migration_driver_partitions (now : Int) (events : List LegacyEvent) :
    (mainPartitionEvents now events).1
        = events.filterMap (Telemetry.TelemetryEventMapper.mapEvent now)
    ∧ (mainPartitionEvents now events).2
        = events.filter (fun e => (Telemetry.TelemetryEventMapper.mapEvent now e).isNone)
    ∧ (mainPartitionEvents now events).1.length + (mainPartitionEvents now events).2.length
        = events.length := by
  induction events with
  | nil => exact ⟨rfl, rfl, rfl⟩
  | cons e rest ih =>
      obtain ⟨h1, h2, h3⟩ := ih
      cases hm : Telemetry.TelemetryEventMapper.mapEvent now e with
      | some c =>
          refine ⟨?_, ?_, ?_⟩
          · simp [mainPartitionEvents, hm, h1, List.filterMap_cons]
          · simp [mainPartitionEvents, hm, h2, List.filter_cons]
          · simp [mainPartitionEvents, hm]
            omega
      | none =>
          refine ⟨?_, ?_, ?_⟩
          · simp [mainPartitionEvents, hm, h1, List.filterMap_cons]
          · simp [mainPartitionEvents, hm, h2, List.filter_cons]
          · simp [mainPartitionEvents, hm]
            omega

/-- Counterexample to claim C5 as stated: with input file `legacy.json` and
output file `out.json`, one unmappable event makes the CLI write its second
file as `out-unmapped.json` — a name derived from the output file — which is
not the input-file-derived name `legacy-unmapped.json` the claim requires. -/
theorem unmapped_file_name_counterexample :
    mainWrites 0 "legacy.json" "out.json" [.extensionActivated "1.0" "1.80" 5]
      = [("out.json", .coreEvents []),
         ("out-unmapped.json", .legacyEvents [.extensionActivated "1.0" "1.80" 5])]
    ∧ specUnmappedName "legacy.json" = "legacy-unmapped.json"
    ∧ "out-unmapped.json" ≠ "legacy-unmapped.json" := by
  refine ⟨rfl, rfl, by decide⟩

/-- Claim C5 (amended): when at least one legacy event could not be mapped,
the CLI writes a second file whose name is derived from the OUTPUT file name
by replacing its first `.json` occurrence with `-unmapped.json`, containing
the unmapped events; when every event maps, no second file is written. -/
theorem unmapped_file_writes (now : Int) (inputFile outputFile : String)
    (events : List LegacyEvent) :
    ((mainPartitionEvents now events).2 ≠ [] →
      mainWrites now inputFile outputFile events
        = [(outputFile, .coreEvents (mainPartitionEvents now events).1),
           (replaceFirst outputFile ".json" "-unmapped.json",
            .legacyEvents (mainPartitionEvents now events).2)])
    ∧ ((mainPartitionEvents now events).2 = [] →
      mainWrites now inputFile outputFile events
        = [(outputFile, .coreEvents (mainPartitionEvents now events).1)]) := by
  constructor
  · intro h
    simp only [mainWrites]
    rw [if_pos (List.length_pos.mpr h)]
    rfl
  · intro h
    simp only [mainWrites]
    rw [if_neg (by simp [h])]

/-- Witness for claim C5 (amended): a batch with one unmappable event yields
the extra `out-unmapped.json` write; an empty batch yields only the primary
write. -/
theorem unmapped_file_writes_witness :
    mainWrites 0 "in.json" "out.json" [.extensionActivated "v" "vv" 1]
      = [("out.json", FileContent.coreEvents []),
         ("out-unmapped.json", FileContent.legacyEvents [.extensionActivated "v" "vv" 1])]
    ∧ mainWrites 0 "in.json" "out.json" [] = [("out.json", FileContent.coreEvents [])] :=
  ⟨(unmapped_file_writes 0 "in.json" "out.json" [.extensionActivated "v" "vv" 1]).1
      (fun hc => List.noConfusion hc),
   (unmapped_file_writes 0 "in.json" "out.json" []).2 rfl⟩

/-- The fixed bit of each trigger. -/
def triggerBit : SessionTrigger → Nat
  | .filewatch => 1
  | .preCommit => 2
  | .manual => 4
  | .idleFinalize => 8

theorem encode_lambda_eq :
    (fun (mask : Nat) (trigger : SessionTrigger) =>
      match trigger with
      | .filewatch => mask ||| 1
      | .preCommit => mask ||| 2
      | .manual => mask ||| 4
      | .idleFinalize => mask ||| 8)
    = fun mask t => mask ||| triggerBit t := by
  funext mask t
  cases t <;> rfl

theorem encode_foldl_acc (ts : List SessionTrigger) (a : Nat) :
    List.foldl (fun mask t => mask ||| triggerBit t) a ts
      = a ||| List.foldl (fun mask t => mask ||| triggerBit t) 0 ts := by
  induction ts generalizing a with
  | nil => simp
  | cons t ts ih =>
      simp only [List.foldl_cons]
      rw [ih (a ||| triggerBit t), ih (0 ||| triggerBit t), Nat.zero_or, Nat.or_assoc]

theorem encodeTriggerBitmask_cons (t : SessionTrigger) (ts : List SessionTrigger) :
    encodeTriggerBitmask (t :: ts) = triggerBit t ||| encodeTriggerBitmask ts := by
  unfold encodeTriggerBitmask
  rw [encode_lambda_eq]
  simp only [List.foldl_cons]
  rw [encode_foldl_acc ts (0 ||| triggerBit t), Nat.zero_or]

/-- The mask determined by the four membership booleans. -/
def ofBools (b0 b1 b2 b3 : Bool) : Nat :=
  (cond b0 1 0) ||| ((cond b1 2 0) ||| ((cond b2 4 0) ||| (cond b3 8 0)))

theorem lor_ofBools_fw : ∀ b0 b1 b2 b3 : Bool,
    1 ||| ofBools b0 b1 b2 b3 = ofBools true b1 b2 b3 := by decide

theorem lor_ofBools_pc : ∀ b0 b1 b2 b3 : Bool,
    2 ||| ofBools b0 b1 b2 b3 = ofBools b0 true b2 b3 := by decide

theorem lor_ofBools_man : ∀ b0 b1 b2 b3 : Bool,
    4 ||| ofBools b0 b1 b2 b3 = ofBools b0 b1 true b3 := by decide

theorem lor_ofBools_idle : ∀ b0 b1 b2 b3 : Bool,
    8 ||| ofBools b0 b1 b2 b3 = ofBools b0 b1 b2 true := by decide

theorem encode_eq_ofBools (ts : List SessionTrigger) :
    encodeTriggerBitmask ts
      = ofBools (ts.contains .filewatch) (ts.contains .preCommit)
          (ts.contains .manual) (ts.contains .idleFinalize) := by
  induction ts with
  | nil => rfl
  | cons t ts ih =>
      rw [encodeTriggerBitmask_cons, ih]
      cases t <;>
        simp only [triggerBit, List.contains_cons, lor_ofBools_fw, lor_ofBools_pc,
          lor_ofBools_man, lor_ofBools_idle, beq_eq_decide] <;>
        simp

theorem decode_encode_decode_ofBools : ∀ b0 b1 b2 b3 : Bool,
    decodeTriggerBitmask (encodeTriggerBitmask (decodeTriggerBitmask (ofBools b0 b1 b2 b3)))
      = decodeTriggerBitmask (ofBools b0 b1 b2 b3) := by decide

/-- Claim C6: the trigger bitmask codec satisfies
`decode (encode (decode (encode ts))) = decode (encode ts)` for every
sequence of triggers (duplicates and the empty sequence included), and
`encode [] = 0`, `decode 0 = []`. -/
theorem trigger_codec_roundtrip_idempotent (ts : List SessionTrigger) :
    decodeTriggerBitmask (encodeTriggerBitmask
        (decodeTriggerBitmask (encodeTriggerBitmask ts)))
      = decodeTriggerBitmask (encodeTriggerBitmask ts)
    ∧ encodeTriggerBitmask [] = 0
    ∧ decodeTriggerBitmask 0 = [] := by
  refine ⟨?_, rfl, rfl⟩
  rw [encode_eq_ofBools ts]
  exact decode_encode_decode_ofBools _ _ _ _

theorem getSeverity_clamp_id (s : Rat) (h1 : 0 ≤ s) (h2 : s ≤ 10) :
    getSeverity s
      = if s < 3 then "low" else if s < 5 then "medium"
        else if s < 7 then "high" else "critical" := by
  unfold getSeverity
  rw [max_eq_right h1, min_eq_right h2]

/-- Claim C7: the severity bucketing function returns `low` on `[0,3)`,
`medium` on `[3,5)`, `high` on `[5,7)` and `critical` on `[7,10]`, each
bucket inclusive at its lower bound; and the spec's sample points evaluate
accordingly. -/
theorem severity_buckets (s : Rat) :
    (0 ≤ s → s < 3 → getSeverity s = "low")
    ∧ (3 ≤ s → s < 5 → getSeverity s = "medium")
    ∧ (5 ≤ s → s < 7 → getSeverity s = "high")
    ∧ (7 ≤ s → s ≤ 10 → getSeverity s = "critical")
    ∧ getSeverity (29/10) = "low" ∧ getSeverity 3 = "medium"
    ∧ getSeverity (69/10) = "high" ∧ getSeverity 7 = "critical"
    ∧ getSeverity 10 = "critical" := by
  refine ⟨?_, ?_, ?_, ?_, by norm_num [getSeverity], by norm_num [getSeverity],
    by norm_num [getSeverity], by norm_num [getSeverity], by norm_num [getSeverity]⟩
  · intro h1 h2
    rw [getSeverity_clamp_id s h1 (by linarith), if_pos h2]
  · intro h1 h2
    rw [getSeverity_clamp_id s (by linarith) (by linarith),
      if_neg (by linarith), if_pos h2]
  · intro h1 h2
    rw [getSeverity_clamp_id s (by linarith) (by linarith),
      if_neg (by linarith), if_neg (by linarith), if_pos h2]
  · intro h1 h2
    rw [getSeverity_clamp_id s (by linarith) h2,
      if_neg (by linarith), if_neg (by linarith), if_neg (by linarith)]

/-- Witness for claim C7: the theorem applied at a point of each bucket. -/
theorem severity_buckets_witness :
    getSeverity 1 = "low" ∧ getSeverity 4 = "medium"
    ∧ getSeverity 6 = "high" ∧ getSeverity 8 = "critical" :=
  ⟨(severity_buckets 1).1 (by norm_num) (by norm_num),
   (severity_buckets 4).2.1 (by norm_num) (by norm_num),
   (severity_buckets 6).2.2.1 (by norm_num) (by norm_num),
   (severity_buckets 8).2.2.2.1 (by norm_num) (by norm_num)⟩

/-- Claim C8: `normalize` returns a value in `[0,10]` for every score and
source scale (and never throws — it is a total function by construction),
with the spec's clamping sample points. -/
theorem normalize_clamps (s : Rat) (scale : RiskScale) :
    (0 ≤ normalizeRiskScore s scale ∧ normalizeRiskScore s scale ≤ 10)
    ∧ normalizeRiskScore (-5) .zeroOne = 0
    ∧ normalizeRiskScore 2 .zeroOne = 10
    ∧ normalizeRiskScore 150 .zeroHundred = 10 := by
  refine ⟨⟨?_, ?_⟩, by norm_num [normalizeRiskScore, convertRisk_0_1_to_0_10],
    by norm_num [normalizeRiskScore, convertRisk_0_1_to_0_10],
    by norm_num [normalizeRiskScore, convertRisk_0_100_to_0_10]⟩
  · cases scale <;>
      exact le_min (by norm_num) (le_max_left 0 _)
  · cases scale <;> exact min_le_left 10 _

/-- Conformance of a candidate's `properties` object to a canonical tag's
required field set and types, under the v1 schemas: the tag is one of the
seven canonical tags and the properties object parses under that tag's
properties schema. -/
def propsOkV1 (tag : String) (pv : List (String × JVal)) : Bool :=
  if tag = "save_attempt" then (parseSaveAttemptProps pv).isSome
  else if tag = "snapshot_created" then (parseSnapshotCreatedProps pv).isSome
  else if tag = "session_finalized" then (parseSessionFinalizedPropsV1 pv).isSome
  else if tag = "issue_created" then (parseIssueCreatedProps pv).isSome
  else if tag = "issue_resolved" then (parseIssueResolvedProps pv).isSome
  else if tag = "session_restored" then (parseSessionRestoredProps pv).isSome
  else if tag = "policy_changed" then (parsePolicyChangedProps pv).isSome
  else false

/-- Conformance of a candidate's `properties` object under the
`src/events/core.ts` schemas. -/
def propsOkCore (tag : String) (pv : List (String × JVal)) : Bool :=
  if tag = "save_attempt" then (parseSaveAttemptProps pv).isSome
  else if tag = "snapshot_created" then (parseSnapshotCreatedProps pv).isSome
  else if tag = "session_finalized" then (parseSessionFinalizedPropsCore pv).isSome
  else if tag = "issue_created" then (parseIssueCreatedProps pv).isSome
  else if tag = "issue_resolved" then (parseIssueResolvedProps pv).isSome
  else if tag = "session_restored" then (parseSessionRestoredProps pv).isSome
  else if tag = "policy_changed" then (parsePolicyChangedProps pv).isSome
  else false

theorem parseEventSchema_missing_envelope {α : Type} (tagLit : String)
    (ctor : String → Rat → α → CoreEvent) (pp : List (String × JVal) → Option α)
    (now : Int) (pv : List (String × JVal)) {pr : α} (hp : pp pv = some pr) :
    parseEventSchema tagLit ctor pp now
        (.obj [("event", .str tagLit), ("properties", .obj pv)])
      = some (ctor "1.0.0" (now : Rat) pr) := by
  simp [parseEventSchema, getField, asString, asObj, asStringWithDefault,
    asNumberWithDefault, hp]

/-- Claim C9: a candidate value carrying a valid canonical tag and a
conforming properties object validates even when `event_version` and
`timestamp` are absent: `validate` returns true, the explain helper returns
`null`, and the parsed event carries the defaults `"1.0.0"` and the capture
time `now` — absence of the envelope fields is never reported as a failure.
Both the v1 and the `src/events/core.ts` validator are covered. -/
theorem validation_applies_envelope_defaults (now : Int) (tag : String)
    (pv : List (String × JVal)) :
    (propsOkV1 tag pv = true →
      EventsV1.validateCoreTelemetryEvent now
          (.obj [("event", .str tag), ("properties", .obj pv)]) = true
      ∧ EventsV1.getCoreEventValidationError now
          (.obj [("event", .str tag), ("properties", .obj pv)]) = none
      ∧ ∃ c, parseCoreEventV1 now (.obj [("event", .str tag), ("properties", .obj pv)])
            = some c ∧ c.event_version = "1.0.0" ∧ c.timestamp = (now : Rat))
    ∧ (propsOkCore tag pv = true →
      EventsCore.validateCoreTelemetryEvent now
          (.obj [("event", .str tag), ("properties", .obj pv)]) = true
      ∧ EventsCore.getCoreEventValidationError now
          (.obj [("event", .str tag), ("properties", .obj pv)]) = none
      ∧ ∃ c, parseCoreEventCore now (.obj [("event", .str tag), ("properties", .obj pv)])
            = some c ∧ c.event_version = "1.0.0" ∧ c.timestamp = (now : Rat)) := by
  constructor
  · intro h
    unfold propsOkV1 at h
    split_ifs at h with h1 h2 h3 h4 h5 h6 h7
    · subst h1
      obtain ⟨pr, hpr⟩ := Option.isSome_iff_exists.mp h
      have hp0 := parseEventSchema_missing_envelope "save_attempt"
        CoreEvent.save_attempt parseSaveAttemptProps now pv hpr
      have hp : parseCoreEventV1 now
          (.obj [("event", .str "save_attempt"), ("properties", .obj pv)])
          = some (CoreEvent.save_attempt "1.0.0" (now : Rat) pr) := hp0
      exact ⟨by simp [EventsV1.validateCoreTelemetryEvent, hp],
        by simp [EventsV1.getCoreEventValidationError, hp], _, hp, rfl, rfl⟩
    · subst h2
      obtain ⟨pr, hpr⟩ := Option.isSome_iff_exists.mp h
      have hp0 := parseEventSchema_missing_envelope "snapshot_created"
        CoreEvent.snapshot_created parseSnapshotCreatedProps now pv hpr
      have hp : parseCoreEventV1 now
          (.obj [("event", .str "snapshot_created"), ("properties", .obj pv)])
          = some (CoreEvent.snapshot_created "1.0.0" (now : Rat) pr) := hp0
      exact ⟨by simp [EventsV1.validateCoreTelemetryEvent, hp],
        by simp [EventsV1.getCoreEventValidationError, hp], _, hp, rfl, rfl⟩
    · subst h3
      obtain ⟨pr, hpr⟩ := Option.isSome_iff_exists.mp h
      have hp0 := parseEventSchema_missing_envelope "session_finalized"
        CoreEvent.session_finalized parseSessionFinalizedPropsV1 now pv hpr
      have hp : parseCoreEventV1 now
          (.obj [("event", .str "session_finalized"), ("properties", .obj pv)])
          = some (CoreEvent.session_finalized "1.0.0" (now : Rat) pr) := hp0
      exact ⟨by simp [EventsV1.validateCoreTelemetryEvent, hp],
        by simp [EventsV1.getCoreEventValidationError, hp], _, hp, rfl, rfl⟩
    · subst h4
      obtain ⟨pr, hpr⟩ := Option.isSome_iff_exists.mp h
      have hp0 := parseEventSchema_missing_envelope "issue_created"
        CoreEvent.issue_created parseIssueCreatedProps now pv hpr
      have hp : parseCoreEventV1 now
          (.obj [("event", .str "issue_created"), ("properties", .obj pv)])
          = some (CoreEvent.issue_created "1.0.0" (now : Rat) pr) := hp0
      exact ⟨by simp [EventsV1.validateCoreTelemetryEvent, hp],
        by simp [EventsV1.getCoreEventValidationError, hp], _, hp, rfl, rfl⟩
    · subst h5
      obtain ⟨pr, hpr⟩ := Option.isSome_iff_exists.mp h
      have hp0 := parseEventSchema_missing_envelope "issue_resolved"
        CoreEvent.issue_resolved parseIssueResolvedProps now pv hpr
      have hp : parseCoreEventV1 now
          (.obj [("event", .str "issue_resolved"), ("properties", .obj pv)])
          = some (CoreEvent.issue_resolved "1.0.0" (now : Rat) pr) := hp0
      exact ⟨by simp [EventsV1.validateCoreTelemetryEvent, hp],
        by simp [EventsV1.getCoreEventValidationError, hp], _, hp, rfl, rfl⟩
    · subst h6
      obtain ⟨pr, hpr⟩ := Option.isSome_iff_exists.mp h
      have hp0 := parseEventSchema_missing_envelope "session_restored"
        CoreEvent.session_restored parseSessionRestoredProps now pv hpr
      have hp : parseCoreEventV1 now
          (.obj [("event", .str "session_restored"), ("properties", .obj pv)])
          = some (CoreEvent.session_restored "1.0.0" (now : Rat) pr) := hp0
      exact ⟨by simp [EventsV1.validateCoreTelemetryEvent, hp],
        by simp [EventsV1.getCoreEventValidationError, hp], _, hp, rfl, rfl⟩
    · subst h7
      obtain ⟨pr, hpr⟩ := Option.isSome_iff_exists.mp h
      have hp0 := parseEventSchema_missing_envelope "policy_changed"
        CoreEvent.policy_changed parsePolicyChangedProps now pv hpr
      have hp : parseCoreEventV1 now
          (.obj [("event", .str "policy_changed"), ("properties", .obj pv)])
          = some (CoreEvent.policy_changed "1.0.0" (now : Rat) pr) := hp0
      exact ⟨by simp [EventsV1.validateCoreTelemetryEvent, hp],
        by simp [EventsV1.getCoreEventValidationError, hp], _, hp, rfl, rfl⟩
  · intro h
    unfold propsOkCore at h
    split_ifs at h with h1 h2 h3 h4 h5 h6 h7
    · subst h1
      obtain ⟨pr, hpr⟩ := Option.isSome_iff_exists.mp h
      have hp0 := parseEventSchema_missing_envelope "save_attempt"
        CoreEvent.save_attempt parseSaveAttemptProps now pv hpr
      have hp : parseCoreEventCore now
          (.obj [("event", .str "save_attempt"), ("properties", .obj pv)])
          = some (CoreEvent.save_attempt "1.0.0" (now : Rat) pr) := hp0
      exact ⟨by simp [EventsCore.validateCoreTelemetryEvent, hp],
        by simp [EventsCore.getCoreEventValidationError, hp], _, hp, rfl, rfl⟩
    · subst h2
      obtain ⟨pr, hpr⟩ := Option.isSome_iff_exists.mp h
      have hp0 := parseEventSchema_missing_envelope "snapshot_created"
        CoreEvent.snapshot_created parseSnapshotCreatedProps now pv hpr
      have hp : parseCoreEventCore now
          (.obj [("event", .str "snapshot_created"), ("properties", .obj pv)])
          = some (CoreEvent.snapshot_created "1.0.0" (now : Rat) pr) := hp0
      exact ⟨by simp [EventsCore.validateCoreTelemetryEvent, hp],
        by simp [EventsCore.getCoreEventValidationError, hp], _, hp, rfl, rfl⟩
    · subst h3
      obtain ⟨pr, hpr⟩ := Option.isSome_iff_exists.mp h
      have hp0 := parseEventSchema_missing_envelope "session_finalized"
        CoreEvent.session_finalized parseSessionFinalizedPropsCore now pv hpr
      have hp : parseCoreEventCore now
          (.obj [("event", .str "session_finalized"), ("properties", .obj pv)])
          = some (CoreEvent.session_finalized "1.0.0" (now : Rat) pr) := hp0
      exact ⟨by simp [EventsCore.validateCoreTelemetryEvent, hp],
        by simp [EventsCore.getCoreEventValidationError, hp], _, hp, rfl, rfl⟩
    · subst h4
      obtain ⟨pr, hpr⟩ := Option.isSome_iff_exists.mp h
      have hp0 := parseEventSchema_missing_envelope "issue_created"
        CoreEvent.issue_created parseIssueCreatedProps now pv hpr
      have hp : parseCoreEventCore now
          (.obj [("event", .str "issue_created"), ("properties", .obj pv)])
          = some (CoreEvent.issue_created "1.0.0" (now : Rat) pr) := hp0
      exact ⟨by simp [EventsCore.validateCoreTelemetryEvent, hp],
        by simp [EventsCore.getCoreEventValidationError, hp], _, hp, rfl, rfl⟩
    · subst h5
      obtain ⟨pr, hpr⟩ := Option.isSome_iff_exists.mp h
      have hp0 := parseEventSchema_missing_envelope "issue_resolved"
        CoreEvent.issue_resolved parseIssueResolvedProps now pv hpr
      have hp : parseCoreEventCore now
          (.obj [("event", .str "issue_resolved"), ("properties", .obj pv)])
          = some (CoreEvent.issue_resolved "1.0.0" (now : Rat) pr) := hp0
      exact ⟨by simp [EventsCore.validateCoreTelemetryEvent, hp],
        by simp [EventsCore.getCoreEventValidationError, hp], _, hp, rfl, rfl⟩
    · subst h6
      obtain ⟨pr, hpr⟩ := Option.isSome_iff_exists.mp h
      have hp0 := parseEventSchema_missing_envelope "session_restored"
        CoreEvent.session_restored parseSessionRestoredProps now pv hpr
      have hp : parseCoreEventCore now
          (.obj [("event", .str "session_restored"), ("properties", .obj pv)])
          = some (CoreEvent.session_restored "1.0.0" (now : Rat) pr) := hp0
      exact ⟨by simp [EventsCore.validateCoreTelemetryEvent, hp],
        by simp [EventsCore.getCoreEventValidationError, hp], _, hp, rfl, rfl⟩
    · subst h7
      obtain ⟨pr, hpr⟩ := Option.isSome_iff_exists.mp h
      have hp0 := parseEventSchema_missing_envelope "policy_changed"
        CoreEvent.policy_changed parsePolicyChangedProps now pv hpr
      have hp : parseCoreEventCore now
          (.obj [("event", .str "policy_changed"), ("properties", .obj pv)])
          = some (CoreEvent.policy_changed "1.0.0" (now : Rat) pr) := hp0
      exact ⟨by simp [EventsCore.validateCoreTelemetryEvent, hp],
        by simp [EventsCore.getCoreEventValidationError, hp], _, hp, rfl, rfl⟩

/-- Witness for claim C9: an `issue_resolved` candidate with conforming
properties and no `event_version` or `timestamp` field validates under both
validators, with the defaults supplied. -/
theorem validation_applies_envelope_defaults_witness :
    (EventsV1.validateCoreTelemetryEvent 3
        (.obj [("event", .str "issue_resolved"),
               ("properties", .obj [("issue_id", .str "i1"), ("resolution", .str "fixed")])])
        = true
      ∧ EventsV1.getCoreEventValidationError 3
        (.obj [("event", .str "issue_resolved"),
               ("properties", .obj [("issue_id", .str "i1"), ("resolution", .str "fixed")])])
        = none
      ∧ ∃ c, parseCoreEventV1 3
          (.obj [("event", .str "issue_resolved"),
                 ("properties", .obj [("issue_id", .str "i1"), ("resolution", .str "fixed")])])
          = some c ∧ c.event_version = "1.0.0" ∧ c.timestamp = ((3 : Int) : Rat))
    ∧ (EventsCore.validateCoreTelemetryEvent 3
        (.obj [("event", .str "issue_resolved"),
               ("properties", .obj [("issue_id", .str "i1"), ("resolution", .str "fixed")])])
        = true
      ∧ EventsCore.getCoreEventValidationError 3
        (.obj [("event", .str "issue_resolved"),
               ("properties", .obj [("issue_id", .str "i1"), ("resolution", .str "fixed")])])
        = none
      ∧ ∃ c, parseCoreEventCore 3
          (.obj [("event", .str "issue_resolved"),
                 ("properties", .obj [("issue_id", .str "i1"), ("resolution", .str "fixed")])])
          = some c ∧ c.event_version = "1.0.0" ∧ c.timestamp = ((3 : Int) : Rat)) :=
  ⟨(validation_applies_envelope_defaults 3 "issue_resolved"
      [("issue_id", .str "i1"), ("resolution", .str "fixed")]).1 rfl,
   (validation_applies_envelope_defaults 3 "issue_resolved"
      [("issue_id", .str "i1"), ("resolution", .str "fixed")]).2 rfl⟩
